import Mathlib

/-!
# Verification of the MCP App Template server

A shallow embedding of the widget-server code in `server/main.py`,
`server/widgets/` and `server/agent_runner.py`, together with proofs of the
specification claims about it.

Modelling conventions:

* Python `float` arithmetic is modelled with exact rationals (`ℚ`).
* JSON values are modelled by the inductive type `Value`; tool argument
  mappings (`dict` on the wire) by association lists `List (String × Value)`.
* The pydantic validation algorithm (with `populate_by_name=True` and
  `extra="forbid"`, the configuration used by every input model in the
  source) is embedded once as `validate`, parameterised by the per-model
  field lists, which are transcribed from the source model classes.
* Effectful library calls (psutil readings, the qrcode image encoder, the
  Nominatim HTTP geocoder, wall-clock time) are supplied through an
  explicit `Env` record; a Python exception escaping a handler is an
  `Except.error`.
* Fields of results that no claim inspects (the `_meta` metadata block
  attached to successful invocation results) are omitted from the embedded
  result records.
-/

set_option maxHeartbeats 1000000

namespace MCPApp

/-- A JSON-like value: the payloads flowing through tool arguments and
`structuredContent`. Numbers are exact rationals. -/
inductive Value where
  | vNull : Value
  | vBool : Bool → Value
  | vStr : String → Value
  | vNum : ℚ → Value
  | vArr : List Value → Value
  | vObj : List (String × Value) → Value

/-- A tool-call argument mapping (a JSON object, keys unique on the wire). -/
abbrev ArgMap := List (String × Value)

/-- First-match association-list lookup (Python `dict` access). -/
def alookup {α : Type} : List (String × α) → String → Option α
  | [], _ => none
  | (k, v) :: rest, key => if k = key then some v else alookup rest key

/-- Association-list overwrite (Python `dict[key] = value`). -/
def aput {α : Type} (l : List (String × α)) (key : String) (v : α) :
    List (String × α) :=
  (key, v) :: l.filter (fun p => p.1 ≠ key)

/-! ## Pydantic input models

Every input model in the source is a flat pydantic `BaseModel` with
`model_config = ConfigDict(populate_by_name=True, extra="forbid")`
(`SystemInfoInput` omits `populate_by_name` but declares no fields).
`FieldTy` covers the field annotations that occur in the source:
`str`, `Optional[str]`, `Optional[Literal[...]]`, `Literal[...]`,
`int` and `float`. String-to-number lax coercions of pydantic are not
modelled; no claim depends on them. -/

inductive FieldTy where
  | fStr : FieldTy
  | fOptStr : FieldTy
  | fOptEnum : List String → FieldTy
  | fEnum : List String → FieldTy
  | fInt : FieldTy
  | fFloat : FieldTy

/-- One declared pydantic field: python name, optional wire alias,
annotation, and default value (every field in the source has one). -/
structure FieldSpec where
  name : String
  wireAlias : Option String
  ty : FieldTy
  dflt : Value

/-- An input model: its declared fields in declaration order. -/
structure InputModel where
  fields : List FieldSpec

/-- The wire keys that populate a field: the alias (if any) takes
priority, and `populate_by_name=True` admits the python name as well. -/
def fieldKeys (f : FieldSpec) : List String :=
  match f.wireAlias with
  | some a => [a, f.name]
  | none => [f.name]

/-- All wire keys accepted by a model; anything else is an extra input. -/
def declaredKeys (m : InputModel) : List String :=
  m.fields.flatMap fieldKeys

/-- The python field names of a model (`model_fields.keys()`). -/
def fieldNames (m : InputModel) : List String :=
  m.fields.map (·.name)

/-- The first supplied wire value for a field, alias first. -/
def findFieldValue (args : ArgMap) (f : FieldSpec) : Option Value :=
  match (fieldKeys f).filterMap (alookup args) with
  | [] => none
  | v :: _ => some v

/-- Type-check a supplied value against a field annotation. -/
def parseValue : FieldTy → Value → Except String Value
  | .fStr, .vStr s => .ok (.vStr s)
  | .fStr, _ => .error "Input should be a valid string"
  | .fOptStr, .vNull => .ok .vNull
  | .fOptStr, .vStr s => .ok (.vStr s)
  | .fOptStr, _ => .error "Input should be a valid string"
  | .fOptEnum _, .vNull => .ok .vNull
  | .fOptEnum allowed, .vStr s =>
      if s ∈ allowed then .ok (.vStr s)
      else .error ("Input should be " ++ String.intercalate " or " allowed)
  | .fOptEnum _, _ => .error "Input should be a valid string"
  | .fEnum allowed, .vStr s =>
      if s ∈ allowed then .ok (.vStr s)
      else .error ("Input should be " ++ String.intercalate " or " allowed)
  | .fEnum _, _ => .error "Input should be a valid string"
  | .fInt, .vNum q =>
      if q.den = 1 then .ok (.vNum q)
      else .error "Input should be a valid integer"
  | .fInt, _ => .error "Input should be a valid integer"
  | .fFloat, .vNum q => .ok (.vNum q)
  | .fFloat, _ => .error "Input should be a valid number"

/-- Validate one field: absent keys take the declared default. Returns
either the final (name, value) assignment or a (name, message) error. -/
def fieldResult (args : ArgMap) (f : FieldSpec) :
    Except (String × String) (String × Value) :=
  match findFieldValue args f with
  | none => .ok (f.name, f.dflt)
  | some v =>
      match parseValue f.ty v with
      | .ok v' => .ok (f.name, v')
      | .error msg => .error (f.name, msg)

/-- The extra-input errors: every supplied key that is neither a field
name nor an alias of a declared field (`extra="forbid"`). -/
def extraErrors (m : InputModel) (args : ArgMap) : List (String × String) :=
  (args.filter (fun p => p.1 ∉ declaredKeys m)).map
    (fun p => (p.1, "Extra inputs are not permitted"))

/-- The field-level errors of a validation run. -/
def fieldErrors (m : InputModel) (args : ArgMap) : List (String × String) :=
  m.fields.filterMap (fun f =>
    match fieldResult args f with
    | .ok _ => none
    | .error e => some e)

/-- The final assignment of a validation run (meaningful when no errors). -/
def fieldAssignments (m : InputModel) (args : ArgMap) : List (String × Value) :=
  m.fields.map (fun f =>
    match fieldResult args f with
    | .ok a => a
    | .error _ => (f.name, f.dflt))

/-- `Model.model_validate(arguments)`: succeeds with all fields assigned
(validated values or defaults) or raises `ValidationError` carrying every
field error and every extra-input error. -/
def validate (m : InputModel) (args : ArgMap) :
    Except (List (String × String)) (List (String × Value)) :=
  match fieldErrors m args ++ extraErrors m args with
  | [] => .ok (fieldAssignments m args)
  | errs => .error errs

/-- Read a validated string field (total accessor; on the success path of
`validate` the stored value always has the expected shape). -/
def getStr (p : List (String × Value)) (key : String) : String :=
  match alookup p key with
  | some (.vStr s) => s
  | _ => ""

/-- Read a validated optional string field; `none` models python `None`. -/
def getOptStr (p : List (String × Value)) (key : String) : Option String :=
  match alookup p key with
  | some (.vStr s) => some s
  | _ => none

/-- Read a validated numeric field. -/
def getNum (p : List (String × Value)) (key : String) : ℚ :=
  match alookup p key with
  | some (.vNum q) => q
  | _ => 0

/-- Read a validated integer field as an `Int`. -/
def getInt (p : List (String × Value)) (key : String) : Int :=
  match alookup p key with
  | some (.vNum q) => q.num
  | _ => 0

/-- Python `str.join` on a separator (`sep.join(parts)`). -/
def joinSep (sep : String) : List String → String
  | [] => ""
  | [x] => x
  | x :: y :: rest => x ++ sep ++ joinSep sep (y :: rest)

/-- `format_validation_error` (identical in `main.py` and `widgets/_base.py`):
renders each error as an indented bullet and appends the full list of valid
field names. -/
def formatValidationError (errs : List (String × String))
    (validFields : List String) : String :=
  "Validation error. Issues:\n" ++
    joinSep "\n" (errs.map (fun e => "  - " ++ e.1 ++ ": " ++ e.2)) ++
    "\n\nValid fields: " ++ joinSep ", " validFields

/-! ## Tool results -/

/-- One item of a `CallToolResult.content` array. -/
inductive ContentItem where
  | text : String → ContentItem
  | image : String → String → ContentItem

/-- A `CallToolResult`, restricted to the fields the claims inspect
(`isError`, `content`, `structuredContent`; the `_meta` block is omitted). -/
structure ToolResult where
  isError : Bool
  content : List ContentItem
  structured : Option Value

/-- The error result a handler returns when validation fails. -/
def errorResult (msg : String) : ToolResult :=
  { isError := true, content := [.text msg], structured := none }

/-- The substring relation used to state "the text contains ...". -/
def ContainsSubstr (s sub : String) : Prop :=
  ∃ a b, s = a ++ sub ++ b

/-! ## The effect environment

Library calls with effects are read from this record so that handlers
stay pure functions of it: `socket`/`platform`/`psutil` readings, the
`qrcode`+PIL image encoder (a function of the six parameters the handler
passes), the Nominatim HTTP search (which can fail: `raise_for_status`),
and wall-clock time. -/

/-- One Nominatim search hit, as the geocode handler consumes it
(`display_name`, `lat`, `lon`, and an optional `boundingbox`, read with
default `["0","0","0","0"]`, here as a 4-tuple south/north/west/east). -/
structure GeoResult where
  displayName : String
  lat : String
  lon : String
  boundingbox : Option (String × String × String × String)

structure Env where
  hostname : String
  platformSystem : String
  platformMachine : String
  processor : String
  cpuCount : Option Nat
  memTotalBytes : Nat
  memUsedBytes : Nat
  memPercent : ℚ
  cpuPercents : List ℚ
  timeNow : ℚ
  bootTime : ℚ
  timestampUTC : String
  qrPngB64 : String → Int → Int → String → String → String → String
  geocode : String → Except String (List GeoResult)

/-- Python `round(x, 2)` (banker's rounding, half to even). -/
def pyRound2 (q : ℚ) : ℚ :=
  let x := q * 100
  let f : Int := ⌊x⌋
  let frac := x - f
  let n : Int :=
    if frac > 1/2 then f + 1
    else if frac < 1/2 then f
    else if f % 2 = 0 then f else f + 1
  (n : ℚ) / 100

/-- Python `int(x)` on a float: truncation toward zero. -/
def pyTrunc (q : ℚ) : Int := q.num / (q.den : Int)

/-- Rendering of a rational where the source interpolates a float into an
f-string; the exact decimal formatting is abstracted by `toString`. -/
def showNum (q : ℚ) : String := toString q

/-- Rendering of a Python list of floats (`f"{cpu_percents}"`). -/
def showNumList (l : List ℚ) : String :=
  "[" ++ joinSep ", " (l.map showNum) ++ "]"

/-! ## Sample data

The fixture literals below are transcribed from `main.py`; the per-widget
modules under `widgets/` carry byte-identical copies of each of them, so
both embeddings reference these constants. -/

def SAMPLE_CAROUSEL_ITEMS : Value := .vArr [
  .vObj [("id", .vStr "1"), ("title", .vStr "Golden Gate Bistro"), ("subtitle", .vStr "Modern American"), ("image", .vStr "https://images.unsplash.com/photo-1517248135467-4c7edcad34c4?w=400&h=300&fit=crop"), ("rating", .vNum 4.8), ("location", .vStr "San Francisco"), ("price", .vStr "$$$"), ("badge", .vStr "Popular")],
  .vObj [("id", .vStr "2"), ("title", .vStr "Marina Bay Kitchen"), ("subtitle", .vStr "Fresh seafood"), ("image", .vStr "https://images.unsplash.com/photo-1552566626-52f8b828add9?w=400&h=300&fit=crop"), ("rating", .vNum 4.6), ("location", .vStr "Oakland"), ("price", .vStr "$$")],
  .vObj [("id", .vStr "3"), ("title", .vStr "Sunset Terrace"), ("subtitle", .vStr "Rooftop dining"), ("image", .vStr "https://images.unsplash.com/photo-1414235077428-338989a2e8c0?w=400&h=300&fit=crop"), ("rating", .vNum 4.9), ("location", .vStr "Berkeley"), ("price", .vStr "$$$$"), ("badge", .vStr "New")],
  .vObj [("id", .vStr "4"), ("title", .vStr "The Local Table"), ("subtitle", .vStr "Farm-to-table"), ("image", .vStr "https://images.unsplash.com/photo-1466978913421-dad2ebd01d17?w=400&h=300&fit=crop"), ("rating", .vNum 4.5), ("location", .vStr "Palo Alto"), ("price", .vStr "$$")],
  .vObj [("id", .vStr "5"), ("title", .vStr "Urban Spice"), ("subtitle", .vStr "Indian fusion"), ("image", .vStr "https://images.unsplash.com/photo-1555396273-367ea4eb4db5?w=400&h=300&fit=crop"), ("rating", .vNum 4.7), ("location", .vStr "San Jose"), ("price", .vStr "$$")]]

/-- Number of carousel sample items (used in the narration text). -/
def carouselItemCount : Nat := 5

def SAMPLE_LIST_ITEMS : Value := .vArr [
  .vObj [("id", .vStr "1"), ("title", .vStr "The Modern Kitchen"), ("subtitle", .vStr "Contemporary American"), ("image", .vStr "https://images.unsplash.com/photo-1517248135467-4c7edcad34c4?w=100&h=100&fit=crop"), ("rating", .vNum 4.9), ("meta", .vStr "San Francisco"), ("badge", .vStr "#1")],
  .vObj [("id", .vStr "2"), ("title", .vStr "Bella Italia"), ("subtitle", .vStr "Authentic Italian"), ("image", .vStr "https://images.unsplash.com/photo-1555396273-367ea4eb4db5?w=100&h=100&fit=crop"), ("rating", .vNum 4.8), ("meta", .vStr "Oakland"), ("badge", .vStr "#2")],
  .vObj [("id", .vStr "3"), ("title", .vStr "Sakura Japanese"), ("subtitle", .vStr "Sushi & Izakaya"), ("image", .vStr "https://images.unsplash.com/photo-1579871494447-9811cf80d66c?w=100&h=100&fit=crop"), ("rating", .vNum 4.7), ("meta", .vStr "Berkeley"), ("badge", .vStr "#3")],
  .vObj [("id", .vStr "4"), ("title", .vStr "Taco Loco"), ("subtitle", .vStr "Mexican Street Food"), ("image", .vStr "https://images.unsplash.com/photo-1565299585323-38d6b0865b47?w=100&h=100&fit=crop"), ("rating", .vNum 4.6), ("meta", .vStr "San Jose")],
  .vObj [("id", .vStr "5"), ("title", .vStr "Golden Dragon"), ("subtitle", .vStr "Cantonese Cuisine"), ("image", .vStr "https://images.unsplash.com/photo-1552566626-52f8b828add9?w=100&h=100&fit=crop"), ("rating", .vNum 4.5), ("meta", .vStr "Palo Alto")]]

def listItemCount : Nat := 5

def SAMPLE_GALLERY_IMAGES : Value := .vArr [
  .vObj [("id", .vStr "1"), ("src", .vStr "https://images.unsplash.com/photo-1506905925346-21bda4d32df4?w=800&h=600&fit=crop"), ("thumbnail", .vStr "https://images.unsplash.com/photo-1506905925346-21bda4d32df4?w=400&h=300&fit=crop"), ("title", .vStr "Mountain Sunrise"), ("description", .vStr "Alps at dawn"), ("author", .vStr "John Doe")],
  .vObj [("id", .vStr "2"), ("src", .vStr "https://images.unsplash.com/photo-1469474968028-56623f02e42e?w=800&h=600&fit=crop"), ("thumbnail", .vStr "https://images.unsplash.com/photo-1469474968028-56623f02e42e?w=400&h=300&fit=crop"), ("title", .vStr "Forest Path"), ("description", .vStr "Sunlit forest"), ("author", .vStr "Jane Smith")],
  .vObj [("id", .vStr "3"), ("src", .vStr "https://images.unsplash.com/photo-1507525428034-b723cf961d3e?w=800&h=600&fit=crop"), ("thumbnail", .vStr "https://images.unsplash.com/photo-1507525428034-b723cf961d3e?w=400&h=300&fit=crop"), ("title", .vStr "Tropical Beach"), ("description", .vStr "Crystal waters"), ("author", .vStr "Mike Johnson")],
  .vObj [("id", .vStr "4"), ("src", .vStr "https://images.unsplash.com/photo-1519681393784-d120267933ba?w=800&h=600&fit=crop"), ("thumbnail", .vStr "https://images.unsplash.com/photo-1519681393784-d120267933ba?w=400&h=300&fit=crop"), ("title", .vStr "Starry Night"), ("description", .vStr "Milky Way"), ("author", .vStr "Sarah Wilson")],
  .vObj [("id", .vStr "5"), ("src", .vStr "https://images.unsplash.com/photo-1518837695005-2083093ee35b?w=800&h=600&fit=crop"), ("thumbnail", .vStr "https://images.unsplash.com/photo-1518837695005-2083093ee35b?w=400&h=300&fit=crop"), ("title", .vStr "Ocean Waves"), ("description", .vStr "Crashing waves"), ("author", .vStr "Tom Brown")],
  .vObj [("id", .vStr "6"), ("src", .vStr "https://images.unsplash.com/photo-1441974231531-c6227db76b6e?w=800&h=600&fit=crop"), ("thumbnail", .vStr "https://images.unsplash.com/photo-1441974231531-c6227db76b6e?w=400&h=300&fit=crop"), ("title", .vStr "Misty Forest"), ("description", .vStr "Morning fog"), ("author", .vStr "Emily Davis")]]

def galleryImageCount : Nat := 6

def SAMPLE_DASHBOARD_STATS : Value := .vArr [
  .vObj [("id", .vStr "revenue"), ("label", .vStr "Total Revenue"), ("value", .vStr "$45,231.89"), ("change", .vNum 20.1), ("changeLabel", .vStr "from last month"), ("icon", .vStr "dollar")],
  .vObj [("id", .vStr "users"), ("label", .vStr "Active Users"), ("value", .vStr "2,350"), ("change", .vNum 15.3), ("changeLabel", .vStr "from last month"), ("icon", .vStr "users")],
  .vObj [("id", .vStr "orders"), ("label", .vStr "Orders"), ("value", .vStr "1,247"), ("change", .vNum (-5.2)), ("changeLabel", .vStr "from last month"), ("icon", .vStr "cart")],
  .vObj [("id", .vStr "views"), ("label", .vStr "Page Views"), ("value", .vStr "573,921"), ("change", .vNum 12.5), ("changeLabel", .vStr "from last month"), ("icon", .vStr "eye")]]

def SAMPLE_ACTIVITIES : Value := .vArr [
  .vObj [("id", .vStr "1"), ("title", .vStr "New user registered"), ("description", .vStr "john.doe@example.com signed up"), ("time", .vStr "2 min ago"), ("type", .vStr "success")],
  .vObj [("id", .vStr "2"), ("title", .vStr "Order completed"), ("description", .vStr "Order #12345 fulfilled"), ("time", .vStr "15 min ago"), ("type", .vStr "info")],
  .vObj [("id", .vStr "3"), ("title", .vStr "Payment failed"), ("description", .vStr "$99.00 declined"), ("time", .vStr "1 hour ago"), ("type", .vStr "error")],
  .vObj [("id", .vStr "4"), ("title", .vStr "Low stock alert"), ("description", .vStr "SKU-789 running low"), ("time", .vStr "3 hours ago"), ("type", .vStr "warning")]]

def SAMPLE_TODO_LISTS : Value := .vArr [
  .vObj [("id", .vStr "work"), ("title", .vStr "Work Tasks"), ("isCurrentlyOpen", .vBool true), ("todos", .vArr [
    .vObj [("id", .vStr "1"), ("title", .vStr "Review pull requests"), ("isComplete", .vBool false), ("note", .vStr "Check the new feature branch")],
    .vObj [("id", .vStr "2"), ("title", .vStr "Update documentation"), ("isComplete", .vBool true)],
    .vObj [("id", .vStr "3"), ("title", .vStr "Team standup meeting"), ("isComplete", .vBool false), ("dueDate", .vStr "2025-01-15")]])],
  .vObj [("id", .vStr "personal"), ("title", .vStr "Personal"), ("todos", .vArr [
    .vObj [("id", .vStr "4"), ("title", .vStr "Buy groceries"), ("isComplete", .vBool false)],
    .vObj [("id", .vStr "5"), ("title", .vStr "Call mom"), ("isComplete", .vBool false), ("dueDate", .vStr "2025-01-14")]])],
  .vObj [("id", .vStr "shopping"), ("title", .vStr "Shopping List"), ("todos", .vArr [
    .vObj [("id", .vStr "6"), ("title", .vStr "Milk"), ("isComplete", .vBool false)],
    .vObj [("id", .vStr "7"), ("title", .vStr "Bread"), ("isComplete", .vBool true)],
    .vObj [("id", .vStr "8"), ("title", .vStr "Eggs"), ("isComplete", .vBool false)]])]]

/-- The todo narration counts: 3 lists, 3+2+3 items. -/
def todoListCount : Nat := 3
def todoItemCount : Nat := 8

def SAMPLE_CART_ITEMS : Value := .vArr [
  .vObj [("id", .vStr "marys-chicken"), ("name", .vStr "Mary's Chicken"), ("price", .vNum 19.48), ("description", .vStr "Tender organic chicken breasts trimmed for easy cooking."), ("shortDescription", .vStr "Organic chicken breasts"), ("detailSummary", .vStr "4 lbs - $3.99/lb"), ("quantity", .vNum 2), ("image", .vStr "https://persistent.oaistatic.com/pizzaz-cart-xl/chicken.png"), ("tags", .vArr [.vStr "size"])],
  .vObj [("id", .vStr "avocados"), ("name", .vStr "Avocados"), ("price", .vNum 1.00), ("description", .vStr "Creamy Hass avocados picked at peak ripeness."), ("shortDescription", .vStr "Creamy Hass avocados"), ("quantity", .vNum 2), ("image", .vStr "https://persistent.oaistatic.com/pizzaz-cart-xl/avocado.png"), ("tags", .vArr [.vStr "vegan"])],
  .vObj [("id", .vStr "hojicha-pizza"), ("name", .vStr "Hojicha Pizza"), ("price", .vNum 15.50), ("description", .vStr "Wood-fired crust with smoky hojicha tea sauce and honey."), ("shortDescription", .vStr "Smoky hojicha sauce & honey"), ("quantity", .vNum 1), ("image", .vStr "https://persistent.oaistatic.com/pizzaz-cart-xl/hojicha-pizza.png"), ("tags", .vArr [.vStr "vegetarian", .vStr "spicy"])],
  .vObj [("id", .vStr "chicken-pizza"), ("name", .vStr "Chicken Pizza"), ("price", .vNum 7.00), ("description", .vStr "Classic thin-crust pizza with roasted chicken and herb pesto."), ("shortDescription", .vStr "Roasted chicken & pesto"), ("quantity", .vNum 1), ("image", .vStr "https://persistent.oaistatic.com/pizzaz-cart-xl/chicken-pizza.png"), ("tags", .vArr [])],
  .vObj [("id", .vStr "matcha-pizza"), ("name", .vStr "Matcha Pizza"), ("price", .vNum 5.00), ("description", .vStr "Crisp dough with velvety matcha cream and mascarpone."), ("shortDescription", .vStr "Velvety matcha cream"), ("quantity", .vNum 1), ("image", .vStr "https://persistent.oaistatic.com/pizzaz-cart-xl/matcha-pizza.png"), ("tags", .vArr [.vStr "vegetarian"])]]

/-- Sum of the cart quantities (2+2+1+1+1), used in the shop narration. -/
def cartTotalItems : Nat := 7

/-! ## Scenario modeler computation

Direct translation of `_calculate_projections`, `_calculate_summary` and
`_build_scenario_template` (identical in `main.py` and
`widgets/scenario_modeler.py`), with float arithmetic read as exact
rational arithmetic. -/

/-- One row of the 12-month projection table. -/
structure Projection where
  month : Nat
  mrr : ℚ
  grossProfit : ℚ
  netProfit : ℚ
  cumulativeRevenue : ℚ
  deriving DecidableEq

/-- The five scenario parameters. -/
structure ScenarioParams where
  starting_mrr : ℚ
  monthly_growth_rate : ℚ
  monthly_churn_rate : ℚ
  gross_margin : ℚ
  fixed_costs : ℚ

/-- The loop body of `_calculate_projections`: walks the month list
carrying the cumulative revenue accumulator. -/
def projectionLoop (p : ScenarioParams) (net_growth_rate : ℚ) :
    List Nat → ℚ → List Projection
  | [], _ => []
  | month :: rest, cum =>
      let mrr := p.starting_mrr * (1 + net_growth_rate) ^ month
      let gross_profit := mrr * (p.gross_margin / 100)
      let net_profit := gross_profit - p.fixed_costs
      let cum' := cum + mrr
      { month := month, mrr := mrr, grossProfit := gross_profit,
        netProfit := net_profit, cumulativeRevenue := cum' } ::
        projectionLoop p net_growth_rate rest cum'

/-- `_calculate_projections`: 12 rows for months 1..12. -/
def calculate_projections (p : ScenarioParams) : List Projection :=
  let net_growth_rate := (p.monthly_growth_rate - p.monthly_churn_rate) / 100
  projectionLoop p net_growth_rate ((List.range 12).map (· + 1)) 0

/-- The summary block computed by `_calculate_summary`. -/
structure Summary where
  endingMRR : ℚ
  arr : ℚ
  totalRevenue : ℚ
  totalProfit : ℚ
  mrrGrowthPct : ℚ
  avgMargin : ℚ
  breakEvenMonth : Nat
  deriving DecidableEq

/-- `next((p["month"] for p in projections if p["netProfit"] >= 0), 0)`. -/
def firstBreakEvenMonth (projections : List Projection) : Nat :=
  match projections.find? (fun p => 0 ≤ p.netProfit) with
  | some p => p.month
  | none => 0

/-- `_calculate_summary` (the `projections[11]` access is modelled
totally; the source always passes a 12-row list). -/
def calculate_summary (projections : List Projection) (starting_mrr : ℚ) :
    Summary :=
  let ending_mrr := ((projections.getD 11
    { month := 0, mrr := 0, grossProfit := 0, netProfit := 0,
      cumulativeRevenue := 0 })).mrr
  let total_revenue := (projections.map (·.mrr)).sum
  let total_profit := (projections.map (·.netProfit)).sum
  let mrr_growth_pct := ((ending_mrr - starting_mrr) / starting_mrr) * 100
  let avg_margin := if total_revenue ≠ 0 then (total_profit / total_revenue) * 100 else 0
  { endingMRR := ending_mrr, arr := ending_mrr * 12,
    totalRevenue := total_revenue, totalProfit := total_profit,
    mrrGrowthPct := mrr_growth_pct, avgMargin := avg_margin,
    breakEvenMonth := firstBreakEvenMonth projections }

/-- JSON rendering of a projection row, as it appears in
`structuredContent`. -/
def Projection.toValue (p : Projection) : Value :=
  .vObj [("month", .vNum p.month), ("mrr", .vNum p.mrr),
    ("grossProfit", .vNum p.grossProfit), ("netProfit", .vNum p.netProfit),
    ("cumulativeRevenue", .vNum p.cumulativeRevenue)]

/-- JSON rendering of the summary block. -/
def Summary.toValue (s : Summary) : Value :=
  .vObj [("endingMRR", .vNum s.endingMRR), ("arr", .vNum s.arr),
    ("totalRevenue", .vNum s.totalRevenue), ("totalProfit", .vNum s.totalProfit),
    ("mrrGrowthPct", .vNum s.mrrGrowthPct), ("avgMargin", .vNum s.avgMargin),
    ("breakEvenMonth", .vNum s.breakEvenMonth)]

/-- `_build_scenario_template`. -/
def build_scenario_template (id name description icon : String)
    (params : ScenarioParams) (key_insight : String) : Value :=
  let projections := calculate_projections params
  let summary := calculate_summary projections params.starting_mrr
  .vObj [("id", .vStr id), ("name", .vStr name),
    ("description", .vStr description), ("icon", .vStr icon),
    ("parameters", .vObj [
      ("startingMRR", .vNum params.starting_mrr),
      ("monthlyGrowthRate", .vNum params.monthly_growth_rate),
      ("monthlyChurnRate", .vNum params.monthly_churn_rate),
      ("grossMargin", .vNum params.gross_margin),
      ("fixedCosts", .vNum params.fixed_costs)]),
    ("projections", .vArr (projections.map Projection.toValue)),
    ("summary", summary.toValue),
    ("keyInsight", .vStr key_insight)]

def SCENARIO_TEMPLATES : Value := .vArr [
  build_scenario_template "bootstrapped" "Bootstrapped Growth"
    "Low burn, steady growth, path to profitability" "🌱"
    { starting_mrr := 30000, monthly_growth_rate := 4, monthly_churn_rate := 2,
      gross_margin := 85, fixed_costs := 20000 }
    "Profitable by month 1, but slower scale",
  build_scenario_template "vc-rocketship" "VC Rocketship"
    "High burn, explosive growth, raise more later" "🚀"
    { starting_mrr := 100000, monthly_growth_rate := 15, monthly_churn_rate := 5,
      gross_margin := 70, fixed_costs := 150000 }
    "Loses money early but ends at 3x MRR",
  build_scenario_template "cash-cow" "Cash Cow"
    "Mature product, high margin, stable revenue" "🐄"
    { starting_mrr := 80000, monthly_growth_rate := 2, monthly_churn_rate := 1,
      gross_margin := 90, fixed_costs := 40000 }
    "Consistent profitability, low risk",
  build_scenario_template "turnaround" "Turnaround"
    "Fighting churn, rebuilding product-market fit" "🔄"
    { starting_mrr := 60000, monthly_growth_rate := 6, monthly_churn_rate := 8,
      gross_margin := 75, fixed_costs := 50000 }
    "Negative net growth requires urgent action",
  build_scenario_template "efficient-growth" "Efficient Growth"
    "Balanced approach with sustainable economics" "⚖️"
    { starting_mrr := 50000, monthly_growth_rate := 8, monthly_churn_rate := 3,
      gross_margin := 80, fixed_costs := 35000 }
    "Good growth with path to profitability"]

def SCENARIO_DEFAULT_INPUTS : Value := .vObj [
  ("startingMRR", .vNum 50000), ("monthlyGrowthRate", .vNum 5),
  ("monthlyChurnRate", .vNum 3), ("grossMargin", .vNum 80),
  ("fixedCosts", .vNum 30000)]

def scenarioTemplateCount : Nat := 5

/-! ## The `main.py` server -/

/-- The `Widget` dataclass, restricted to the fields the claims use
(`description`, `invoking` and `invoked` are free-text strings no claim
inspects and are omitted). -/
structure WidgetRec where
  identifier : String
  title : String
  template_uri : String
  component_name : String
  deriving DecidableEq

namespace Main

/-- `create_widgets()` / the module constant `WIDGETS` in `main.py`. -/
def WIDGETS : List WidgetRec := [
  { identifier := "show_card", title := "Show Card Widget",
    template_uri := "ui://widget/boilerplate.html", component_name := "boilerplate" },
  { identifier := "show_carousel", title := "Show Carousel",
    template_uri := "ui://widget/carousel.html", component_name := "carousel" },
  { identifier := "show_list", title := "Show List",
    template_uri := "ui://widget/list.html", component_name := "list" },
  { identifier := "show_gallery", title := "Show Gallery",
    template_uri := "ui://widget/gallery.html", component_name := "gallery" },
  { identifier := "show_dashboard", title := "Show Dashboard",
    template_uri := "ui://widget/dashboard.html", component_name := "dashboard" },
  { identifier := "show_solar_system", title := "Show Solar System",
    template_uri := "ui://widget/solar-system.html", component_name := "solar-system" },
  { identifier := "show_todo", title := "Show Todo List",
    template_uri := "ui://widget/todo.html", component_name := "todo" },
  { identifier := "show_shop", title := "Show Shopping Cart",
    template_uri := "ui://widget/shop.html", component_name := "shop" },
  { identifier := "show_qr", title := "Generate QR Code",
    template_uri := "ui://widget/qr.html", component_name := "qr" },
  { identifier := "get_scenario_data", title := "SaaS Scenario Modeler",
    template_uri := "ui://widget/scenario-modeler.html", component_name := "scenario-modeler" },
  { identifier := "get_system_info", title := "System Monitor",
    template_uri := "ui://widget/system-monitor.html", component_name := "system-monitor" },
  { identifier := "show_map", title := "Show Map",
    template_uri := "ui://widget/map.html", component_name := "map" }]

/-- `WIDGETS_BY_ID`. -/
def WIDGETS_BY_ID : List (String × WidgetRec) :=
  WIDGETS.map (fun w => (w.identifier, w))

/-- `WIDGETS_BY_URI`. -/
def WIDGETS_BY_URI : List (String × WidgetRec) :=
  WIDGETS.map (fun w => (w.template_uri, w))

/-! The input model classes of `main.py` (fields in declaration order). -/

def CardInput : InputModel := ⟨[
  ⟨"title", none, .fStr, .vStr "Card Widget"⟩,
  ⟨"message", none, .fStr, .vStr "Hello from the server!"⟩,
  ⟨"accent_color", some "accentColor", .fStr, .vStr "#2563eb"⟩]⟩

def CarouselInput : InputModel := ⟨[
  ⟨"title", none, .fStr, .vStr "Recommendations"⟩,
  ⟨"category", none, .fStr, .vStr "restaurants"⟩]⟩

def ListInput : InputModel := ⟨[
  ⟨"title", none, .fStr, .vStr "Top Picks"⟩,
  ⟨"subtitle", none, .fStr, .vStr "Curated recommendations"⟩,
  ⟨"category", none, .fStr, .vStr "restaurants"⟩]⟩

def GalleryInput : InputModel := ⟨[
  ⟨"title", none, .fStr, .vStr "Photo Gallery"⟩,
  ⟨"category", none, .fStr, .vStr "nature"⟩]⟩

def DashboardInput : InputModel := ⟨[
  ⟨"title", none, .fStr, .vStr "Dashboard"⟩,
  ⟨"period", none, .fStr, .vStr "Last 30 days"⟩]⟩

/-- `main.py`'s `SolarSystemInput`: `planet_name` is a plain
`Optional[str]` (no `Literal` restriction). -/
def SolarSystemInput : InputModel := ⟨[
  ⟨"planet_name", none, .fOptStr, .vNull⟩,
  ⟨"title", none, .fStr, .vStr "Solar System Explorer"⟩]⟩

def TodoInput : InputModel := ⟨[
  ⟨"title", none, .fStr, .vStr "My Tasks"⟩]⟩

def ShopInput : InputModel := ⟨[
  ⟨"title", none, .fStr, .vStr "Your Cart"⟩]⟩

def QrInput : InputModel := ⟨[
  ⟨"text", none, .fStr, .vStr "https://modelcontextprotocol.io"⟩,
  ⟨"box_size", some "boxSize", .fInt, .vNum 10⟩,
  ⟨"border", none, .fInt, .vNum 4⟩,
  ⟨"error_correction", some "errorCorrection", .fStr, .vStr "M"⟩,
  ⟨"fill_color", some "fillColor", .fStr, .vStr "black"⟩,
  ⟨"back_color", some "backColor", .fStr, .vStr "white"⟩]⟩

def ScenarioModelerInput : InputModel := ⟨[
  ⟨"starting_mrr", some "startingMRR", .fFloat, .vNum 50000⟩,
  ⟨"monthly_growth_rate", some "monthlyGrowthRate", .fFloat, .vNum 5⟩,
  ⟨"monthly_churn_rate", some "monthlyChurnRate", .fFloat, .vNum 3⟩,
  ⟨"gross_margin", some "grossMargin", .fFloat, .vNum 80⟩,
  ⟨"fixed_costs", some "fixedCosts", .fFloat, .vNum 30000⟩]⟩

def SystemInfoInput : InputModel := ⟨[]⟩

def ShowMapInput : InputModel := ⟨[
  ⟨"west", none, .fFloat, .vNum (-0.5)⟩,
  ⟨"south", none, .fFloat, .vNum 51.3⟩,
  ⟨"east", none, .fFloat, .vNum 0.3⟩,
  ⟨"north", none, .fFloat, .vNum 51.7⟩]⟩

def GeocodeInput : InputModel := ⟨[
  ⟨"query", none, .fStr, .vStr "London"⟩]⟩

/-- `WIDGET_INPUT_MODELS`. -/
def WIDGET_INPUT_MODELS : List (String × InputModel) := [
  ("show_card", CardInput),
  ("show_carousel", CarouselInput),
  ("show_list", ListInput),
  ("show_gallery", GalleryInput),
  ("show_dashboard", DashboardInput),
  ("show_solar_system", SolarSystemInput),
  ("show_todo", TodoInput),
  ("show_shop", ShopInput),
  ("show_qr", QrInput),
  ("get_scenario_data", ScenarioModelerInput),
  ("get_system_info", SystemInfoInput),
  ("show_map", ShowMapInput)]

/-- The tool names declared by `list_tools()`: one `Tool` per registered
widget, then the single data-only declaration for `poll_system_stats`.
(No declaration is appended for `geocode`.) -/
def listToolNames : List String :=
  WIDGETS.map (·.identifier) ++ ["poll_system_stats"]

/-! The per-widget handlers of `main.py`. Each validates its arguments
against its input model and either returns the formatted validation
error or assembles the widget's `structuredContent`. Handlers that use
no library effects take no `Env`. -/

def handle_card (args : ArgMap) : ToolResult :=
  match validate CardInput args with
  | .error errs => errorResult (formatValidationError errs (fieldNames CardInput))
  | .ok p =>
      { isError := false
        content := [.text ("Card widget: " ++ getStr p "title")]
        structured := some (.vObj [
          ("title", .vStr (getStr p "title")),
          ("message", .vStr (getStr p "message")),
          ("accentColor", .vStr (getStr p "accent_color")),
          ("items", .vArr [
            .vObj [("id", .vStr "1"), ("name", .vStr "First Item"), ("description", .vStr "Sample item description")],
            .vObj [("id", .vStr "2"), ("name", .vStr "Second Item"), ("description", .vStr "Another sample item")],
            .vObj [("id", .vStr "3"), ("name", .vStr "Third Item"), ("description", .vStr "One more item")]])]) }

def handle_carousel (args : ArgMap) : ToolResult :=
  match validate CarouselInput args with
  | .error errs => errorResult (formatValidationError errs (fieldNames CarouselInput))
  | .ok p =>
      { isError := false
        content := [.text ("Carousel: " ++ getStr p "title" ++ " (" ++
          toString carouselItemCount ++ " items)")]
        structured := some (.vObj [
          ("title", .vStr (getStr p "title")),
          ("items", SAMPLE_CAROUSEL_ITEMS)]) }

def handle_list (args : ArgMap) : ToolResult :=
  match validate ListInput args with
  | .error errs => errorResult (formatValidationError errs (fieldNames ListInput))
  | .ok p =>
      { isError := false
        content := [.text ("List: " ++ getStr p "title" ++ " (" ++
          toString listItemCount ++ " items)")]
        structured := some (.vObj [
          ("title", .vStr (getStr p "title")),
          ("subtitle", .vStr (getStr p "subtitle")),
          ("headerImage", .vStr "https://images.unsplash.com/photo-1504674900247-0877df9cc836?w=200&h=200&fit=crop"),
          ("actionLabel", .vStr "Save List"),
          ("items", SAMPLE_LIST_ITEMS)]) }

def handle_gallery (args : ArgMap) : ToolResult :=
  match validate GalleryInput args with
  | .error errs => errorResult (formatValidationError errs (fieldNames GalleryInput))
  | .ok p =>
      { isError := false
        content := [.text ("Gallery: " ++ getStr p "title" ++ " (" ++
          toString galleryImageCount ++ " photos)")]
        structured := some (.vObj [
          ("title", .vStr (getStr p "title")),
          ("images", SAMPLE_GALLERY_IMAGES)]) }

def handle_dashboard (args : ArgMap) : ToolResult :=
  match validate DashboardInput args with
  | .error errs => errorResult (formatValidationError errs (fieldNames DashboardInput))
  | .ok p =>
      { isError := false
        content := [.text ("Dashboard: " ++ getStr p "title")]
        structured := some (.vObj [
          ("title", .vStr (getStr p "title")),
          ("subtitle", .vStr "Your key metrics at a glance"),
          ("period", .vStr (getStr p "period")),
          ("stats", SAMPLE_DASHBOARD_STATS),
          ("activities", SAMPLE_ACTIVITIES)]) }

def handle_solar_system (args : ArgMap) : ToolResult :=
  match validate SolarSystemInput args with
  | .error errs => errorResult (formatValidationError errs (fieldNames SolarSystemInput))
  | .ok p =>
      let planet := getOptStr p "planet_name"
      -- `payload.planet_name or ""` and the truthiness test on it
      let planetShown := (planet.getD "")
      let planet_msg := if planetShown = "" then "" else
        " (focusing on " ++ planetShown ++ ")"
      { isError := false
        content := [.text ("Solar System" ++ planet_msg)]
        structured := some (.vObj [
          ("title", .vStr (getStr p "title")),
          ("planet_name", .vStr planetShown)]) }

def handle_todo (args : ArgMap) : ToolResult :=
  match validate TodoInput args with
  | .error errs => errorResult (formatValidationError errs (fieldNames TodoInput))
  | .ok _ =>
      { isError := false
        content := [.text ("Todo: " ++ toString todoListCount ++ " lists, " ++
          toString todoItemCount ++ " items")]
        structured := some (.vObj [("lists", SAMPLE_TODO_LISTS)]) }

def handle_shop (args : ArgMap) : ToolResult :=
  match validate ShopInput args with
  | .error errs => errorResult (formatValidationError errs (fieldNames ShopInput))
  | .ok p =>
      { isError := false
        content := [.text ("Shopping Cart: " ++ toString cartTotalItems ++ " items")]
        structured := some (.vObj [
          ("title", .vStr (getStr p "title")),
          ("cartItems", SAMPLE_CART_ITEMS)]) }

def handle_qr (args : ArgMap) (env : Env) : ToolResult :=
  match validate QrInput args with
  | .error errs => errorResult (formatValidationError errs (fieldNames QrInput))
  | .ok p =>
      -- clamp/default to valid values (`or` falls back on empty strings)
      let text0 := getStr p "text"
      let text := if text0 = "" then "https://modelcontextprotocol.io" else text0
      let box_size := max 1 (getInt p "box_size")
      let border := max 0 (getInt p "border")
      let fill0 := getStr p "fill_color"
      let fill_color := if fill0 = "" then "black" else fill0
      let back0 := getStr p "back_color"
      let back_color := if back0 = "" then "white" else back0
      let ec0 := getStr p "error_correction"
      let ec_key := (if ec0 = "" then "M" else ec0).toUpper
      -- `error_levels.get(ec_key, ERROR_CORRECT_M)`
      let ec_eff := if ec_key ∈ ["L", "M", "Q", "H"] then ec_key else "M"
      let b64 := env.qrPngB64 text box_size border ec_eff fill_color back_color
      { isError := false
        content := [.text ("QR code generated for: " ++ text),
          .image b64 "image/png"]
        structured := some (.vObj [
          ("imageData", .vStr b64),
          ("mimeType", .vStr "image/png")]) }

def handle_scenario_modeler (args : ArgMap) : ToolResult :=
  match validate ScenarioModelerInput args with
  | .error errs => errorResult (formatValidationError errs (fieldNames ScenarioModelerInput))
  | .ok _ =>
      { isError := false
        content := [.text ("SaaS Scenario Modeler (" ++
          toString scenarioTemplateCount ++ " templates)")]
        structured := some (.vObj [
          ("templates", SCENARIO_TEMPLATES),
          ("defaultInputs", SCENARIO_DEFAULT_INPUTS)]) }

def handle_system_info (args : ArgMap) (env : Env) : ToolResult :=
  match validate SystemInfoInput args with
  | .error errs => errorResult (formatValidationError errs (fieldNames SystemInfoInput))
  | .ok _ =>
      let hostname := env.hostname
      let platformStr := env.platformSystem ++ " " ++ env.platformMachine
      -- `platform.processor() or "Unknown"` / `psutil.cpu_count() or 1`
      let cpuModel := if env.processor = "" then "Unknown" else env.processor
      let cpuCount : Nat := match env.cpuCount with
        | none => 1
        | some n => if n = 0 then 1 else n
      { isError := false
        content := [.text ("System: " ++ hostname ++ " (" ++ platformStr ++ ")")]
        structured := some (.vObj [
          ("hostname", .vStr hostname),
          ("platform", .vStr platformStr),
          ("cpu", .vObj [("model", .vStr cpuModel), ("count", .vNum cpuCount)]),
          ("memory", .vObj [("totalBytes", .vNum env.memTotalBytes)])]) }

/-- `handle_poll_system_stats` performs no input validation and ignores
its arguments. -/
def handle_poll_system_stats (_args : ArgMap) (env : Env) : ToolResult :=
  let memoryUsedGB := pyRound2 ((env.memUsedBytes : ℚ) / (1024 ^ 3 : ℚ))
  let memoryTotalGB := pyRound2 ((env.memTotalBytes : ℚ) / (1024 ^ 3 : ℚ))
  let uptime := pyTrunc (env.timeNow - env.bootTime)
  { isError := false
    content := [.text ("CPU: " ++ showNumList env.cpuPercents ++
      ", Memory: " ++ showNum env.memPercent ++ "%")]
    structured := some (.vObj [
      ("cpuPercents", .vArr (env.cpuPercents.map (.vNum ·))),
      ("memoryPercent", .vNum env.memPercent),
      ("memoryUsedGB", .vNum memoryUsedGB),
      ("memoryTotalGB", .vNum memoryTotalGB),
      ("uptime", .vNum uptime),
      ("timestamp", .vStr env.timestampUTC)]) }

def handle_show_map (args : ArgMap) : ToolResult :=
  match validate ShowMapInput args with
  | .error errs => errorResult (formatValidationError errs (fieldNames ShowMapInput))
  | .ok p =>
      { isError := false
        content := [.text ("Map: W:" ++ showNum (getNum p "west") ++
          " S:" ++ showNum (getNum p "south") ++
          " E:" ++ showNum (getNum p "east") ++
          " N:" ++ showNum (getNum p "north"))]
        structured := some (.vObj [
          ("west", .vNum (getNum p "west")),
          ("south", .vNum (getNum p "south")),
          ("east", .vNum (getNum p "east")),
          ("north", .vNum (getNum p "north"))]) }

/-- Rendering of one Nominatim hit in the geocode reply text. -/
def formatGeoResult (r : GeoResult) : String :=
  let bb := r.boundingbox.getD ("0", "0", "0", "0")
  r.displayName ++ "\n  Coordinates: " ++ r.lat ++ ", " ++ r.lon ++
    "\n  Bounding box: W:" ++ bb.2.2.1 ++ ", S:" ++ bb.1 ++
    ", E:" ++ bb.2.2.2 ++ ", N:" ++ bb.2.1

/-- `handle_geocode`: validates, then performs the outbound HTTP search;
a failing call (`raise_for_status`) propagates as `Except.error`. The
no-results reply is a plain (non-error) text result; neither reply
carries `structuredContent`. -/
def handle_geocode (args : ArgMap) (env : Env) : Except String ToolResult :=
  match validate GeocodeInput args with
  | .error errs =>
      .ok (errorResult (formatValidationError errs (fieldNames GeocodeInput)))
  | .ok p =>
      let query := getStr p "query"
      match env.geocode query with
      | .error e => .error e
      | .ok results =>
          if results.isEmpty then
            .ok { isError := false
                  content := [.text ("No results found for \"" ++ query ++ "\"")]
                  structured := none }
          else
            .ok { isError := false
                  content := [.text (joinSep "\n\n" (results.map formatGeoResult))]
                  structured := none }

/-- `handle_call_tool`: data-only tools first, then widget lookup and the
per-widget routing chain; an unmatched name yields the structured
"Unknown tool" error result. -/
def handle_call_tool (name : String) (args : ArgMap) (env : Env) :
    Except String ToolResult :=
  if name = "poll_system_stats" then .ok (handle_poll_system_stats args env)
  else if name = "geocode" then handle_geocode args env
  else
    match alookup WIDGETS_BY_ID name with
    | none =>
        .ok { isError := true
              content := [.text ("Unknown tool: " ++ name)]
              structured := none }
    | some _ =>
        if name = "show_card" then .ok (handle_card args)
        else if name = "show_carousel" then .ok (handle_carousel args)
        else if name = "show_list" then .ok (handle_list args)
        else if name = "show_gallery" then .ok (handle_gallery args)
        else if name = "show_dashboard" then .ok (handle_dashboard args)
        else if name = "show_solar_system" then .ok (handle_solar_system args)
        else if name = "show_todo" then .ok (handle_todo args)
        else if name = "show_shop" then .ok (handle_shop args)
        else if name = "show_qr" then .ok (handle_qr args env)
        else if name = "get_scenario_data" then .ok (handle_scenario_modeler args)
        else if name = "get_system_info" then .ok (handle_system_info args env)
        else if name = "show_map" then .ok (handle_show_map args)
        else
          .ok { isError := true
                content := [.text ("No handler for: " ++ name)]
                structured := none }

end Main

/-! ## HTML asset loading and `read_resource`

`load_widget_html` in `main.py` (the copy in `widgets/_base.py` is
identical). The composition of `_resolve_html_path` with `stat` and
`read_text` is modelled as a map from component name to the resolved
file's current content and modification time; a `none` entry is the
`FileNotFoundError` branch of `_resolve_html_path`. -/

/-- The on-disk file a component name currently resolves to. -/
structure FileInfo where
  content : String
  mtime : ℚ
  deriving DecidableEq

/-- The assets directory as seen through `_resolve_html_path`. -/
def FileSys := String → Option FileInfo

/-- The module-level `_html_cache` / `_html_mtimes` dictionaries. -/
structure CacheState where
  htmlCache : List (String × String)
  htmlMtimes : List (String × ℚ)
  deriving DecidableEq

/-- `_clear_html_cache()`. -/
def emptyCache : CacheState := ⟨[], []⟩

/-- Anchored character-list match test. -/
def startsWithChars : List Char → List Char → Bool
  | [], _ => true
  | _ :: _, [] => false
  | p :: ps, c :: cs => p = c && startsWithChars ps cs

/-- The traversal of Python `str.replace`: replaces every non-overlapping
occurrence of `pat` left to right. The fuel argument (instantiated with
the string length; `pat` is nonempty at every call site) makes the
recursion structural. -/
def replaceChars (pat rep : List Char) : Nat → List Char → List Char
  | 0, s => s
  | _ + 1, [] => []
  | fuel + 1, c :: rest =>
      if startsWithChars pat (c :: rest) then
        rep ++ replaceChars pat rep fuel ((c :: rest).drop pat.length)
      else
        c :: replaceChars pat rep fuel rest

/-- Python `s.replace(pat, rep)`. -/
def pyReplace (s pat rep : String) : String :=
  ⟨replaceChars pat.data rep.data s.data.length s.data⟩

/-- The relative-to-absolute URL rewriting applied to loaded HTML
(`html.replace('src="./', ...)` then `.replace('href="./', ...)`). -/
def rewriteAssetUrls (html baseUrl : String) : String :=
  pyReplace (pyReplace html "src=\"./" ("src=\"" ++ baseUrl ++ "/"))
    "href=\"./" ("href=\"" ++ baseUrl ++ "/")

/-- `load_widget_html`: returns the text, the updated cache state, and
whether the file was (re-)read. The cache hit requires the component to
be cached with a modification time equal to the file's current one. -/
def load_widget_html (fs : FileSys) (baseUrl : String) (st : CacheState)
    (name : String) : Except String (String × CacheState × Bool) :=
  match fs name with
  | none =>
      .error ("Widget HTML for \"" ++ name ++ "\" not found in assets. " ++
        "Run pnpm run build from the repo root to generate the assets.")
  | some fi =>
      match alookup st.htmlCache name, alookup st.htmlMtimes name with
      | some cached, some mt =>
          if mt = fi.mtime then .ok (cached, st, false)
          else
            let html := rewriteAssetUrls fi.content baseUrl
            .ok (html, ⟨aput st.htmlCache name html,
              aput st.htmlMtimes name fi.mtime⟩, true)
      | _, _ =>
          let html := rewriteAssetUrls fi.content baseUrl
          .ok (html, ⟨aput st.htmlCache name html,
            aput st.htmlMtimes name fi.mtime⟩, true)

def MIME_TYPE : String := "text/html;profile=mcp-app"

/-- A `ReadResourceResult`: content items (uri, mime type, text) and the
error note carried in `_meta` for unknown URIs. -/
structure ReadResourceResult where
  contents : List (String × String × String)
  metaError : Option String

namespace Main

/-- `handle_read_resource`: unknown URIs yield an empty result with an
error note (no exception); known URIs render the widget's HTML (a
missing asset file propagates the loader's exception). -/
def handle_read_resource (uri : String) (fs : FileSys) (baseUrl : String)
    (st : CacheState) : Except String (ReadResourceResult × CacheState) :=
  match alookup WIDGETS_BY_URI uri with
  | none => .ok (⟨[], some ("Unknown resource: " ++ uri)⟩, st)
  | some w =>
      match load_widget_html fs baseUrl st w.component_name with
      | .error e => .error e
      | .ok (html, st', _) =>
          .ok (⟨[(w.template_uri, MIME_TYPE, html)], none⟩, st')

end Main

/-! ## The agent runner's conversation history (`agent_runner.py`) -/

namespace Agent

/-- One history turn. -/
structure Message where
  role : String
  content : String
  deriving DecidableEq

/-- Python `history[-n:]` (note `[-0:]` is the whole list). -/
def pyLastSlice {α : Type} (n : Nat) (l : List α) : List α :=
  if n = 0 then l else l.drop (l.length - n)

/-- The `max_conversation_history` entry of `load_config`'s default
configuration. -/
def defaultMaxConversationHistory : Nat := 20

/-- `load_config()["max_conversation_history"]`: the merged dict takes
the config file's value when present, else the default. -/
def load_max_history : Option Nat → Nat
  | some n => n
  | none => defaultMaxConversationHistory

/-- `ConversationManager.conversations`. -/
abbrev Conversations := List (String × List Message)

/-- `ConversationManager.get_history` (read-only view; the side effect
of inserting `[]` for a fresh id does not change the returned value). -/
def get_history (cm : Conversations) (id : String) : List Message :=
  (alookup cm id).getD []

/-- `ConversationManager.add_message`: append, then truncate to the last
`maxHist` entries whenever the bound is exceeded. -/
def add_message (maxHist : Nat) (cm : Conversations)
    (id role content : String) : Conversations :=
  let history := get_history cm id ++ [⟨role, content⟩]
  let history' :=
    if history.length > maxHist then pyLastSlice maxHist history else history
  aput cm id history'

/-- `ConversationManager.clear`. -/
def clear (cm : Conversations) (id : String) : Conversations :=
  cm.filter (fun p => p.1 ≠ id)

end Agent

/-! ## Widget-module auto-discovery (`widgets/__init__.py`)

The `pkgutil.iter_modules` / `importlib.import_module` loop, abstracted
over the module list. Importing a module either yields its declared
objects or raises; the loop body contains no `try`/`except`. -/

namespace Discovery

/-- What a successfully imported widget module exposes to the loop. -/
structure ModuleDefs where
  widget : Option WidgetRec
  hasInputModel : Bool
  dataTools : List String
  deriving DecidableEq

/-- A module on disk: its name and the outcome of importing it
(`Except.error` models an exception raised during import). -/
structure PyModule where
  name : String
  load : Except String ModuleDefs

/-- The registry tables built by the loop, tracked by identifier
(handlers and model classes are keyed by the same identifiers). -/
structure Registry where
  widgets : List WidgetRec
  handlerIds : List String
  inputModelIds : List String
  dataToolNames : List String
  deriving DecidableEq

def emptyRegistry : Registry := ⟨[], [], [], []⟩

/-- `name.startswith("_")` (the private-module check of the loop). -/
def isPrivateName (s : String) : Bool :=
  match s.data with
  | '_' :: _ => true
  | _ => false

/-- The loop body for one successfully imported module. -/
def registerModule (reg : Registry) (d : ModuleDefs) : Registry :=
  let reg' :=
    match d.widget with
    | none => reg
    | some w =>
        { reg with
          widgets := reg.widgets ++ [w]
          handlerIds := reg.handlerIds ++ [w.identifier]
          inputModelIds := reg.inputModelIds ++
            (if d.hasInputModel then [w.identifier] else []) }
  { reg' with dataToolNames := reg'.dataToolNames ++ d.dataTools }

/-- The discovery loop: underscore-prefixed names are skipped; an import
failure propagates immediately (there is no per-module fault isolation
in the source loop). -/
def discover : List PyModule → Registry → Except String Registry
  | [], reg => .ok reg
  | m :: rest, reg =>
      if isPrivateName m.name then discover rest reg
      else
        match m.load with
        | .error e => .error e
        | .ok defs => discover rest (registerModule reg defs)

end Discovery

/-! ## The `widgets/` package modules

The second implementation of the tool surface: per-module input models
and `handle` functions, discovered into `WIDGET_HANDLERS` /
`DATA_ONLY_HANDLERS`. The model classes are transcribed from the module
files; they differ from `main.py` exactly in the three `Literal`-typed
fields (`carousel.category`, `gallery.category`,
`solar_system.planet_name`). The sample-data literals are byte-identical
to `main.py`'s and are shared above. -/

namespace WPkg

def CardInput : InputModel := ⟨[
  ⟨"title", none, .fStr, .vStr "Card Widget"⟩,
  ⟨"message", none, .fStr, .vStr "Hello from the server!"⟩,
  ⟨"accent_color", some "accentColor", .fStr, .vStr "#2563eb"⟩]⟩

/-- `widgets/carousel.py`: `category: Literal["restaurants", "hotels",
"products", "attractions"]`. -/
def CarouselInput : InputModel := ⟨[
  ⟨"title", none, .fStr, .vStr "Recommendations"⟩,
  ⟨"category", none,
    .fEnum ["restaurants", "hotels", "products", "attractions"],
    .vStr "restaurants"⟩]⟩

def ListInput : InputModel := ⟨[
  ⟨"title", none, .fStr, .vStr "Top Picks"⟩,
  ⟨"subtitle", none, .fStr, .vStr "Curated recommendations"⟩,
  ⟨"category", none, .fStr, .vStr "restaurants"⟩]⟩

/-- `widgets/gallery.py`: `category: Literal["nature", "architecture",
"portraits", "travel"]`. -/
def GalleryInput : InputModel := ⟨[
  ⟨"title", none, .fStr, .vStr "Photo Gallery"⟩,
  ⟨"category", none,
    .fEnum ["nature", "architecture", "portraits", "travel"],
    .vStr "nature"⟩]⟩

def DashboardInput : InputModel := ⟨[
  ⟨"title", none, .fStr, .vStr "Dashboard"⟩,
  ⟨"period", none, .fStr, .vStr "Last 30 days"⟩]⟩

/-- The closed planet set of `widgets/solar_system.py`'s `PlanetName`. -/
def planetNames : List String :=
  ["Mercury", "Venus", "Earth", "Mars", "Jupiter", "Saturn", "Uranus", "Neptune"]

/-- `widgets/solar_system.py`: `planet_name: Optional[PlanetName]`. -/
def SolarSystemInput : InputModel := ⟨[
  ⟨"planet_name", none, .fOptEnum planetNames, .vNull⟩,
  ⟨"title", none, .fStr, .vStr "Solar System Explorer"⟩]⟩

def TodoInput : InputModel := ⟨[
  ⟨"title", none, .fStr, .vStr "My Tasks"⟩]⟩

def ShopInput : InputModel := ⟨[
  ⟨"title", none, .fStr, .vStr "Your Cart"⟩]⟩

def QrInput : InputModel := ⟨[
  ⟨"text", none, .fStr, .vStr "https://modelcontextprotocol.io"⟩,
  ⟨"box_size", some "boxSize", .fInt, .vNum 10⟩,
  ⟨"border", none, .fInt, .vNum 4⟩,
  ⟨"error_correction", some "errorCorrection", .fStr, .vStr "M"⟩,
  ⟨"fill_color", some "fillColor", .fStr, .vStr "black"⟩,
  ⟨"back_color", some "backColor", .fStr, .vStr "white"⟩]⟩

def ScenarioModelerInput : InputModel := ⟨[
  ⟨"starting_mrr", some "startingMRR", .fFloat, .vNum 50000⟩,
  ⟨"monthly_growth_rate", some "monthlyGrowthRate", .fFloat, .vNum 5⟩,
  ⟨"monthly_churn_rate", some "monthlyChurnRate", .fFloat, .vNum 3⟩,
  ⟨"gross_margin", some "grossMargin", .fFloat, .vNum 80⟩,
  ⟨"fixed_costs", some "fixedCosts", .fFloat, .vNum 30000⟩]⟩

def SystemInfoInput : InputModel := ⟨[]⟩

def ShowMapInput : InputModel := ⟨[
  ⟨"west", none, .fFloat, .vNum (-0.5)⟩,
  ⟨"south", none, .fFloat, .vNum 51.3⟩,
  ⟨"east", none, .fFloat, .vNum 0.3⟩,
  ⟨"north", none, .fFloat, .vNum 51.7⟩]⟩

def GeocodeInput : InputModel := ⟨[
  ⟨"query", none, .fStr, .vStr "London"⟩]⟩

/-! The `handle` functions of the widget modules (each module body is
the same code as the corresponding `main.py` handler, reading its own
module's input model class). -/

def handle_card (args : ArgMap) : ToolResult :=
  match validate CardInput args with
  | .error errs => errorResult (formatValidationError errs (fieldNames CardInput))
  | .ok p =>
      { isError := false
        content := [.text ("Card widget: " ++ getStr p "title")]
        structured := some (.vObj [
          ("title", .vStr (getStr p "title")),
          ("message", .vStr (getStr p "message")),
          ("accentColor", .vStr (getStr p "accent_color")),
          ("items", .vArr [
            .vObj [("id", .vStr "1"), ("name", .vStr "First Item"), ("description", .vStr "Sample item description")],
            .vObj [("id", .vStr "2"), ("name", .vStr "Second Item"), ("description", .vStr "Another sample item")],
            .vObj [("id", .vStr "3"), ("name", .vStr "Third Item"), ("description", .vStr "One more item")]])]) }

def handle_carousel (args : ArgMap) : ToolResult :=
  match validate CarouselInput args with
  | .error errs => errorResult (formatValidationError errs (fieldNames CarouselInput))
  | .ok p =>
      { isError := false
        content := [.text ("Carousel: " ++ getStr p "title" ++ " (" ++
          toString carouselItemCount ++ " items)")]
        structured := some (.vObj [
          ("title", .vStr (getStr p "title")),
          ("items", SAMPLE_CAROUSEL_ITEMS)]) }

def handle_list (args : ArgMap) : ToolResult :=
  match validate ListInput args with
  | .error errs => errorResult (formatValidationError errs (fieldNames ListInput))
  | .ok p =>
      { isError := false
        content := [.text ("List: " ++ getStr p "title" ++ " (" ++
          toString listItemCount ++ " items)")]
        structured := some (.vObj [
          ("title", .vStr (getStr p "title")),
          ("subtitle", .vStr (getStr p "subtitle")),
          ("headerImage", .vStr "https://images.unsplash.com/photo-1504674900247-0877df9cc836?w=200&h=200&fit=crop"),
          ("actionLabel", .vStr "Save List"),
          ("items", SAMPLE_LIST_ITEMS)]) }

def handle_gallery (args : ArgMap) : ToolResult :=
  match validate GalleryInput args with
  | .error errs => errorResult (formatValidationError errs (fieldNames GalleryInput))
  | .ok p =>
      { isError := false
        content := [.text ("Gallery: " ++ getStr p "title" ++ " (" ++
          toString galleryImageCount ++ " photos)")]
        structured := some (.vObj [
          ("title", .vStr (getStr p "title")),
          ("images", SAMPLE_GALLERY_IMAGES)]) }

def handle_dashboard (args : ArgMap) : ToolResult :=
  match validate DashboardInput args with
  | .error errs => errorResult (formatValidationError errs (fieldNames DashboardInput))
  | .ok p =>
      { isError := false
        content := [.text ("Dashboard: " ++ getStr p "title")]
        structured := some (.vObj [
          ("title", .vStr (getStr p "title")),
          ("subtitle", .vStr "Your key metrics at a glance"),
          ("period", .vStr (getStr p "period")),
          ("stats", SAMPLE_DASHBOARD_STATS),
          ("activities", SAMPLE_ACTIVITIES)]) }

def handle_solar_system (args : ArgMap) : ToolResult :=
  match validate SolarSystemInput args with
  | .error errs => errorResult (formatValidationError errs (fieldNames SolarSystemInput))
  | .ok p =>
      let planet := getOptStr p "planet_name"
      let planetShown := (planet.getD "")
      let planet_msg := if planetShown = "" then "" else
        " (focusing on " ++ planetShown ++ ")"
      { isError := false
        content := [.text ("Solar System" ++ planet_msg)]
        structured := some (.vObj [
          ("title", .vStr (getStr p "title")),
          ("planet_name", .vStr planetShown)]) }

def handle_todo (args : ArgMap) : ToolResult :=
  match validate TodoInput args with
  | .error errs => errorResult (formatValidationError errs (fieldNames TodoInput))
  | .ok _ =>
      { isError := false
        content := [.text ("Todo: " ++ toString todoListCount ++ " lists, " ++
          toString todoItemCount ++ " items")]
        structured := some (.vObj [("lists", SAMPLE_TODO_LISTS)]) }

def handle_shop (args : ArgMap) : ToolResult :=
  match validate ShopInput args with
  | .error errs => errorResult (formatValidationError errs (fieldNames ShopInput))
  | .ok p =>
      { isError := false
        content := [.text ("Shopping Cart: " ++ toString cartTotalItems ++ " items")]
        structured := some (.vObj [
          ("title", .vStr (getStr p "title")),
          ("cartItems", SAMPLE_CART_ITEMS)]) }

def handle_qr (args : ArgMap) (env : Env) : ToolResult :=
  match validate QrInput args with
  | .error errs => errorResult (formatValidationError errs (fieldNames QrInput))
  | .ok p =>
      let text0 := getStr p "text"
      let text := if text0 = "" then "https://modelcontextprotocol.io" else text0
      let box_size := max 1 (getInt p "box_size")
      let border := max 0 (getInt p "border")
      let fill0 := getStr p "fill_color"
      let fill_color := if fill0 = "" then "black" else fill0
      let back0 := getStr p "back_color"
      let back_color := if back0 = "" then "white" else back0
      let ec0 := getStr p "error_correction"
      let ec_key := (if ec0 = "" then "M" else ec0).toUpper
      let ec_eff := if ec_key ∈ ["L", "M", "Q", "H"] then ec_key else "M"
      let b64 := env.qrPngB64 text box_size border ec_eff fill_color back_color
      { isError := false
        content := [.text ("QR code generated for: " ++ text),
          .image b64 "image/png"]
        structured := some (.vObj [
          ("imageData", .vStr b64),
          ("mimeType", .vStr "image/png")]) }

def handle_scenario_modeler (args : ArgMap) : ToolResult :=
  match validate ScenarioModelerInput args with
  | .error errs => errorResult (formatValidationError errs (fieldNames ScenarioModelerInput))
  | .ok _ =>
      { isError := false
        content := [.text ("SaaS Scenario Modeler (" ++
          toString scenarioTemplateCount ++ " templates)")]
        structured := some (.vObj [
          ("templates", SCENARIO_TEMPLATES),
          ("defaultInputs", SCENARIO_DEFAULT_INPUTS)]) }

def handle_system_info (args : ArgMap) (env : Env) : ToolResult :=
  match validate SystemInfoInput args with
  | .error errs => errorResult (formatValidationError errs (fieldNames SystemInfoInput))
  | .ok _ =>
      let hostname := env.hostname
      let platformStr := env.platformSystem ++ " " ++ env.platformMachine
      let cpuModel := if env.processor = "" then "Unknown" else env.processor
      let cpuCount : Nat := match env.cpuCount with
        | none => 1
        | some n => if n = 0 then 1 else n
      { isError := false
        content := [.text ("System: " ++ hostname ++ " (" ++ platformStr ++ ")")]
        structured := some (.vObj [
          ("hostname", .vStr hostname),
          ("platform", .vStr platformStr),
          ("cpu", .vObj [("model", .vStr cpuModel), ("count", .vNum cpuCount)]),
          ("memory", .vObj [("totalBytes", .vNum env.memTotalBytes)])]) }

def handle_poll_system_stats (_args : ArgMap) (env : Env) : ToolResult :=
  let memoryUsedGB := pyRound2 ((env.memUsedBytes : ℚ) / (1024 ^ 3 : ℚ))
  let memoryTotalGB := pyRound2 ((env.memTotalBytes : ℚ) / (1024 ^ 3 : ℚ))
  let uptime := pyTrunc (env.timeNow - env.bootTime)
  { isError := false
    content := [.text ("CPU: " ++ showNumList env.cpuPercents ++
      ", Memory: " ++ showNum env.memPercent ++ "%")]
    structured := some (.vObj [
      ("cpuPercents", .vArr (env.cpuPercents.map (.vNum ·))),
      ("memoryPercent", .vNum env.memPercent),
      ("memoryUsedGB", .vNum memoryUsedGB),
      ("memoryTotalGB", .vNum memoryTotalGB),
      ("uptime", .vNum uptime),
      ("timestamp", .vStr env.timestampUTC)]) }

def handle_show_map (args : ArgMap) : ToolResult :=
  match validate ShowMapInput args with
  | .error errs => errorResult (formatValidationError errs (fieldNames ShowMapInput))
  | .ok p =>
      { isError := false
        content := [.text ("Map: W:" ++ showNum (getNum p "west") ++
          " S:" ++ showNum (getNum p "south") ++
          " E:" ++ showNum (getNum p "east") ++
          " N:" ++ showNum (getNum p "north"))]
        structured := some (.vObj [
          ("west", .vNum (getNum p "west")),
          ("south", .vNum (getNum p "south")),
          ("east", .vNum (getNum p "east")),
          ("north", .vNum (getNum p "north"))]) }

def handle_geocode (args : ArgMap) (env : Env) : Except String ToolResult :=
  match validate GeocodeInput args with
  | .error errs =>
      .ok (errorResult (formatValidationError errs (fieldNames GeocodeInput)))
  | .ok p =>
      let query := getStr p "query"
      match env.geocode query with
      | .error e => .error e
      | .ok results =>
          if results.isEmpty then
            .ok { isError := false
                  content := [.text ("No results found for \"" ++ query ++ "\"")]
                  structured := none }
          else
            .ok { isError := false
                  content := [.text (joinSep "\n\n" (results.map Main.formatGeoResult))]
                  structured := none }

/-- The uniform handler signature used by the registry tables. -/
abbrev Handler := ArgMap → Env → Except String ToolResult

/-- `WIDGET_HANDLERS`, keyed by identifier in the alphabetical module
discovery order of `pkgutil.iter_modules`. -/
def WIDGET_HANDLERS : List (String × Handler) := [
  ("show_card", fun args _ => .ok (handle_card args)),
  ("show_carousel", fun args _ => .ok (handle_carousel args)),
  ("show_dashboard", fun args _ => .ok (handle_dashboard args)),
  ("show_gallery", fun args _ => .ok (handle_gallery args)),
  ("show_list", fun args _ => .ok (handle_list args)),
  ("show_map", fun args _ => .ok (handle_show_map args)),
  ("show_qr", fun args env => .ok (handle_qr args env)),
  ("get_scenario_data", fun args _ => .ok (handle_scenario_modeler args)),
  ("show_shop", fun args _ => .ok (handle_shop args)),
  ("show_solar_system", fun args _ => .ok (handle_solar_system args)),
  ("get_system_info", fun args env => .ok (handle_system_info args env)),
  ("show_todo", fun args _ => .ok (handle_todo args))]

/-- `DATA_ONLY_HANDLERS` (from `map.py` and `system_monitor.py`). -/
def DATA_ONLY_HANDLERS : List (String × Handler) := [
  ("geocode", fun args env => handle_geocode args env),
  ("poll_system_stats", fun args env => .ok (handle_poll_system_stats args env))]

/-- Invoking the handler the widgets package registers for a tool name
(data-only table first, mirroring the dispatch order of `main.py`);
`none` when the package registers no handler under that name. -/
def call (name : String) (args : ArgMap) (env : Env) :
    Option (Except String ToolResult) :=
  match alookup DATA_ONLY_HANDLERS name with
  | some h => some (h args env)
  | none => (alookup WIDGET_HANDLERS name).map (fun h => h args env)

end WPkg

/-- A concrete environment used to instantiate environment-polymorphic
theorems. -/
def sampleEnv : Env :=
  { hostname := "demo-host", platformSystem := "Linux",
    platformMachine := "x86_64", processor := "", cpuCount := some 4,
    memTotalBytes := 8 * 1024 ^ 3, memUsedBytes := 2 * 1024 ^ 3,
    memPercent := 25, cpuPercents := [5, 10], timeNow := 1000,
    bootTime := 250, timestampUTC := "2026-01-01T00:00:00Z",
    qrPngB64 := fun _ _ _ _ _ _ => "iVBORw0KGgo=",
    geocode := fun _ => .ok [] }

/-- Projection of a call outcome onto its error flag (`none` when the
call raised). -/
def okIsError : Except String ToolResult → Option Bool
  | .ok r => some r.isError
  | .error _ => none

/-- Every tool identifier under which the widgets package registers a
handler (data-only tools and widget tools). -/
def allRegisteredToolNames : List String :=
  (WPkg.DATA_ONLY_HANDLERS ++ WPkg.WIDGET_HANDLERS).map (·.1)

namespace Discovery

/-- A widget descriptor exposed by a demo module. -/
def demoWidget : WidgetRec :=
  ⟨"show_demo", "Demo Widget", "ui://widget/demo.html", "demo"⟩

/-- A module whose import raises. -/
def failingModule : PyModule := ⟨"broken", .error "boom"⟩

/-- A later module that exposes a descriptor, handler and input model. -/
def okModule : PyModule := ⟨"demo", .ok ⟨some demoWidget, true, []⟩⟩

end Discovery

/-- A one-file assets directory used to instantiate the loader theorems. -/
def demoFile : FileInfo := ⟨"<script src=\"./widget.js\"></script>", 1⟩

def demoFS : FileSys :=
  fun n => if n = "boilerplate" then some demoFile else none

def demoBase : String := "http://localhost:8000/assets"

/-- The rewritten HTML the loader produces for `demoFile`. -/
def demoLoaded : String := rewriteAssetUrls demoFile.content demoBase

/-- The cache state after a first load of `"boilerplate"`. -/
def demoCache1 : CacheState :=
  ⟨aput emptyCache.htmlCache "boilerplate" demoLoaded,
   aput emptyCache.htmlMtimes "boilerplate" demoFile.mtime⟩

/-- The rebuilt asset file, with different content and mtime. -/
def demoFile2 : FileInfo := ⟨"<link href=\"./style.css\">", 2⟩

def demoFS2 : FileSys :=
  fun n => if n = "boilerplate" then some demoFile2 else none

/-- The month-1 row of the default scenario projection (a fixture used to
instantiate universally quantified theorems). -/
def month1Projection : Projection :=
  { month := 1, mrr := 50000 * (1 + (5 - 3) / 100) ^ 1,
    grossProfit := 50000 * (1 + (5 - 3) / 100) ^ 1 * (80 / 100),
    netProfit := 50000 * (1 + (5 - 3) / 100) ^ 1 * (80 / 100) - 30000,
    cumulativeRevenue := 0 + 50000 * (1 + (5 - 3) / 100) ^ 1 }

/-! # Library lemmas -/

theorem alookup_aput_self {α : Type} (l : List (String × α)) (k : String)
    (v : α) : alookup (aput l k v) k = some v := by
  simp [aput, alookup]

theorem findFieldValue_nil (f : FieldSpec) : findFieldValue [] f = none := by
  cases h : f.wireAlias <;> simp [findFieldValue, fieldKeys, h, alookup]

/-- Validating an empty argument mapping always succeeds, assigning every
field its declared default. -/
theorem validate_nil (m : InputModel) :
    validate m [] = .ok (m.fields.map (fun f => (f.name, f.dflt))) := by
  have hfe : fieldErrors m [] = [] := by
    simp [fieldErrors, fieldResult, findFieldValue_nil]
  have hfa : fieldAssignments m [] = m.fields.map (fun f => (f.name, f.dflt)) := by
    simp [fieldAssignments, fieldResult, findFieldValue_nil]
  simp [validate, hfe, extraErrors, hfa]

/-- An argument mapping containing a key that is not a declared field (nor
an alias of one) always fails validation, with a nonempty error list. -/
theorem validate_extra {m : InputModel} {args : ArgMap} {k : String}
    {v : Value} (hmem : (k, v) ∈ args) (hnd : k ∉ declaredKeys m) :
    validate m args = .error (fieldErrors m args ++ extraErrors m args) ∧
      fieldErrors m args ++ extraErrors m args ≠ [] := by
  have hx : (k, "Extra inputs are not permitted") ∈ extraErrors m args := by
    refine List.mem_map.mpr ⟨(k, v), ?_, rfl⟩
    exact List.mem_filter.mpr ⟨hmem, by simp [hnd]⟩
  have hne : fieldErrors m args ++ extraErrors m args ≠ [] := by
    intro hemp
    rcases List.append_eq_nil.mp hemp with ⟨-, h2⟩
    simp [h2] at hx
  refine ⟨?_, hne⟩
  unfold validate
  cases hl : fieldErrors m args ++ extraErrors m args with
  | nil => exact absurd hl hne
  | cons a l => simp

/-- A member of a joined list occurs verbatim in the joined string. -/
theorem joinSep_contains (sep : String) {x : String} {l : List String} (hx : x ∈ l) :
    ∃ a b, joinSep sep l = a ++ x ++ b := by
  induction l with
  | nil => cases hx
  | cons y ys ih =>
      cases ys with
      | nil =>
          rcases List.mem_singleton.mp hx with rfl
          exact ⟨"", "", by simp [joinSep]⟩
      | cons z zs =>
          rcases List.mem_cons.mp hx with rfl | hmem
          · exact ⟨"", sep ++ joinSep sep (z :: zs), by simp [joinSep, String.append_assoc]⟩
          · rcases ih hmem with ⟨a, b, hab⟩
            exact ⟨y ++ sep ++ a, b, by simp [joinSep, hab, String.append_assoc]⟩

/-- The rendered validation error mentions every valid field name. -/
theorem format_contains_field {errs : List (String × String)}
    {fields : List String} {f : String} (hf : f ∈ fields) :
    ContainsSubstr (formatValidationError errs fields) f := by
  rcases joinSep_contains ", " hf with ⟨a, b, hab⟩
  refine ⟨"Validation error. Issues:\n" ++
    joinSep "\n" (errs.map (fun e => "  - " ++ e.1 ++ ": " ++ e.2)) ++
    "\n\nValid fields: " ++ a, b, ?_⟩
  simp [formatValidationError, hab, String.append_assoc]

/-- Every row produced by the projection loop carries a month from the
month list, the closed-form MRR for that month, and the derived net
profit. -/
theorem projectionLoop_spec (p : ScenarioParams) (net : ℚ) :
    ∀ (months : List Nat) (cum : ℚ), ∀ pr ∈ projectionLoop p net months cum,
      pr.month ∈ months ∧
      pr.mrr = p.starting_mrr * (1 + net) ^ pr.month ∧
      pr.netProfit =
        p.starting_mrr * (1 + net) ^ pr.month * (p.gross_margin / 100) -
          p.fixed_costs := by
  intro months
  induction months with
  | nil => intro cum pr hpr; simp [projectionLoop] at hpr
  | cons m rest ih =>
      intro cum pr hpr
      simp only [projectionLoop, List.mem_cons] at hpr
      rcases hpr with rfl | hpr
      · simp
      · obtain ⟨h1, h2, h3⟩ := ih _ pr hpr
        exact ⟨List.mem_cons_of_mem _ h1, h2, h3⟩

theorem projectionLoop_map_month (p : ScenarioParams) (net : ℚ) :
    ∀ (months : List Nat) (cum : ℚ),
      (projectionLoop p net months cum).map (·.month) = months := by
  intro months
  induction months with
  | nil => intro cum; simp [projectionLoop]
  | cons m rest ih => intro cum; simp [projectionLoop, ih]

theorem projectionLoop_map_mrr (p : ScenarioParams) (net : ℚ) :
    ∀ (months : List Nat) (cum : ℚ),
      (projectionLoop p net months cum).map (·.mrr) =
        months.map (fun m => p.starting_mrr * (1 + net) ^ m) := by
  intro months
  induction months with
  | nil => intro cum; simp [projectionLoop]
  | cons m rest ih => intro cum; simp [projectionLoop, ih]

theorem monthsTwelve : (List.range 12).map (· + 1) =
    [1, 2, 3, 4, 5, 6, 7, 8, 9, 10, 11, 12] := by decide

/-- When the head month already has non-negative net profit, the
break-even search returns it. -/
theorem firstBreakEven_loop_cons (p : ScenarioParams) (net : ℚ) (m : Nat)
    (rest : List Nat) (cum : ℚ)
    (h : 0 ≤ p.starting_mrr * (1 + net) ^ m * (p.gross_margin / 100) -
      p.fixed_costs) :
    firstBreakEvenMonth (projectionLoop p net (m :: rest) cum) = m := by
  simp [projectionLoop, firstBreakEvenMonth, List.find?_cons_of_pos, h]

/-! # Claims -/

/-- C1: for every widget registered in the registry, invoking its tool
through the call-tool dispatcher with an empty argument mapping succeeds
(the result's `isError` flag is not set) and returns a non-empty
`structuredContent` object, because every input schema model supplies a
default for every field. -/
theorem claim1_empty_call_succeeds :
    ∀ w ∈ Main.WIDGETS, ∀ (env : Env),
    ∃ r, Main.handle_call_tool w.identifier [] env = .ok r ∧
      r.isError = false ∧ ∃ kvs, r.structured = some (.vObj kvs) ∧ kvs ≠ [] := by
  intro w hw env
  fin_cases hw
  all_goals exact ⟨_, rfl, rfl, _, rfl, by simp⟩

theorem claim1_witness :
    ∃ r, Main.handle_call_tool "show_card" [] sampleEnv = .ok r ∧
      r.isError = false ∧ ∃ kvs, r.structured = some (.vObj kvs) ∧ kvs ≠ [] :=
  claim1_empty_call_succeeds
    ⟨"show_card", "Show Card Widget", "ui://widget/boilerplate.html", "boilerplate"⟩
    (by decide) sampleEnv

/-- C2: for every widget and every argument mapping containing at least
one key that is not a declared field of that widget's input model, the
call-tool operation returns a (non-raising) result with `isError=true`
whose text contains every valid field name of that widget's input model. -/
theorem claim2_extra_key_error_lists_fields :
    ∀ idm ∈ Main.WIDGET_INPUT_MODELS, ∀ (args : ArgMap) (k : String) (v : Value),
    (k, v) ∈ args → k ∉ declaredKeys idm.2 → ∀ (env : Env),
    ∃ msg, Main.handle_call_tool idm.1 args env = .ok (errorResult msg) ∧
      ∀ f ∈ fieldNames idm.2, ContainsSubstr msg f := by
  intro idm hmem args k v hkv hk env
  fin_cases hmem
  · obtain ⟨hv, -⟩ := validate_extra hkv hk
    refine ⟨formatValidationError
        (fieldErrors Main.CardInput args ++ extraErrors Main.CardInput args)
        (fieldNames Main.CardInput), ?_, fun f hf => format_contains_field hf⟩
    simp [Main.handle_call_tool, Main.WIDGETS_BY_ID, Main.WIDGETS, alookup,
      Main.handle_card, hv]
  · obtain ⟨hv, -⟩ := validate_extra hkv hk
    refine ⟨formatValidationError
        (fieldErrors Main.CarouselInput args ++ extraErrors Main.CarouselInput args)
        (fieldNames Main.CarouselInput), ?_, fun f hf => format_contains_field hf⟩
    simp [Main.handle_call_tool, Main.WIDGETS_BY_ID, Main.WIDGETS, alookup,
      Main.handle_carousel, hv]
  · obtain ⟨hv, -⟩ := validate_extra hkv hk
    refine ⟨formatValidationError
        (fieldErrors Main.ListInput args ++ extraErrors Main.ListInput args)
        (fieldNames Main.ListInput), ?_, fun f hf => format_contains_field hf⟩
    simp [Main.handle_call_tool, Main.WIDGETS_BY_ID, Main.WIDGETS, alookup,
      Main.handle_list, hv]
  · obtain ⟨hv, -⟩ := validate_extra hkv hk
    refine ⟨formatValidationError
        (fieldErrors Main.GalleryInput args ++ extraErrors Main.GalleryInput args)
        (fieldNames Main.GalleryInput), ?_, fun f hf => format_contains_field hf⟩
    simp [Main.handle_call_tool, Main.WIDGETS_BY_ID, Main.WIDGETS, alookup,
      Main.handle_gallery, hv]
  · obtain ⟨hv, -⟩ := validate_extra hkv hk
    refine ⟨formatValidationError
        (fieldErrors Main.DashboardInput args ++ extraErrors Main.DashboardInput args)
        (fieldNames Main.DashboardInput), ?_, fun f hf => format_contains_field hf⟩
    simp [Main.handle_call_tool, Main.WIDGETS_BY_ID, Main.WIDGETS, alookup,
      Main.handle_dashboard, hv]
  · obtain ⟨hv, -⟩ := validate_extra hkv hk
    refine ⟨formatValidationError
        (fieldErrors Main.SolarSystemInput args ++ extraErrors Main.SolarSystemInput args)
        (fieldNames Main.SolarSystemInput), ?_, fun f hf => format_contains_field hf⟩
    simp [Main.handle_call_tool, Main.WIDGETS_BY_ID, Main.WIDGETS, alookup,
      Main.handle_solar_system, hv]
  · obtain ⟨hv, -⟩ := validate_extra hkv hk
    refine ⟨formatValidationError
        (fieldErrors Main.TodoInput args ++ extraErrors Main.TodoInput args)
        (fieldNames Main.TodoInput), ?_, fun f hf => format_contains_field hf⟩
    simp [Main.handle_call_tool, Main.WIDGETS_BY_ID, Main.WIDGETS, alookup,
      Main.handle_todo, hv]
  · obtain ⟨hv, -⟩ := validate_extra hkv hk
    refine ⟨formatValidationError
        (fieldErrors Main.ShopInput args ++ extraErrors Main.ShopInput args)
        (fieldNames Main.ShopInput), ?_, fun f hf => format_contains_field hf⟩
    simp [Main.handle_call_tool, Main.WIDGETS_BY_ID, Main.WIDGETS, alookup,
      Main.handle_shop, hv]
  · obtain ⟨hv, -⟩ := validate_extra hkv hk
    refine ⟨formatValidationError
        (fieldErrors Main.QrInput args ++ extraErrors Main.QrInput args)
        (fieldNames Main.QrInput), ?_, fun f hf => format_contains_field hf⟩
    simp [Main.handle_call_tool, Main.WIDGETS_BY_ID, Main.WIDGETS, alookup,
      Main.handle_qr, hv]
  · obtain ⟨hv, -⟩ := validate_extra hkv hk
    refine ⟨formatValidationError
        (fieldErrors Main.ScenarioModelerInput args ++ extraErrors Main.ScenarioModelerInput args)
        (fieldNames Main.ScenarioModelerInput), ?_, fun f hf => format_contains_field hf⟩
    simp [Main.handle_call_tool, Main.WIDGETS_BY_ID, Main.WIDGETS, alookup,
      Main.handle_scenario_modeler, hv]
  · obtain ⟨hv, -⟩ := validate_extra hkv hk
    refine ⟨formatValidationError
        (fieldErrors Main.SystemInfoInput args ++ extraErrors Main.SystemInfoInput args)
        (fieldNames Main.SystemInfoInput), ?_, fun f hf => format_contains_field hf⟩
    simp [Main.handle_call_tool, Main.WIDGETS_BY_ID, Main.WIDGETS, alookup,
      Main.handle_system_info, hv]
  · obtain ⟨hv, -⟩ := validate_extra hkv hk
    refine ⟨formatValidationError
        (fieldErrors Main.ShowMapInput args ++ extraErrors Main.ShowMapInput args)
        (fieldNames Main.ShowMapInput), ?_, fun f hf => format_contains_field hf⟩
    simp [Main.handle_call_tool, Main.WIDGETS_BY_ID, Main.WIDGETS, alookup,
      Main.handle_show_map, hv]

theorem claim2_witness :
    ∃ msg, Main.handle_call_tool "show_card" [("bogus", .vStr "x")] sampleEnv =
        .ok (errorResult msg) ∧
      ∀ f ∈ fieldNames Main.CardInput, ContainsSubstr msg f :=
  claim2_extra_key_error_lists_fields ("show_card", Main.CardInput)
    (List.mem_cons_self _ _) [("bogus", .vStr "x")] "bogus" (.vStr "x")
    (List.mem_singleton.mpr rfl) (by decide) sampleEnv

/-- C3: a tool name matching neither a data-only handler nor a registered
widget yields a structured `isError=true` result whose text contains
"Unknown tool"; a URI with no matching widget template yields a
read-resource result with zero content items and an error note in its
metadata; neither path raises. -/
theorem claim3_unknown_tool_and_resource :
    (∀ (name : String),
      name ∉ ("poll_system_stats" :: "geocode" :: Main.WIDGETS.map (·.identifier)) →
      ∀ (args : ArgMap) (env : Env),
        Main.handle_call_tool name args env =
          .ok { isError := true, content := [.text ("Unknown tool: " ++ name)],
                structured := none } ∧
        ContainsSubstr ("Unknown tool: " ++ name) "Unknown tool") ∧
    (∀ (uri : String), uri ∉ Main.WIDGETS.map (·.template_uri) →
      ∀ (fs : FileSys) (baseUrl : String) (st : CacheState),
        Main.handle_read_resource uri fs baseUrl st =
          .ok (⟨[], some ("Unknown resource: " ++ uri)⟩, st)) := by
  constructor
  · intro name h args env
    have hsub : ContainsSubstr ("Unknown tool: " ++ name) "Unknown tool" := by
      have hsplit : ("" ++ "Unknown tool" ++ ": " : String) = "Unknown tool: " := by
        decide
      exact ⟨"", ": " ++ name, by rw [← hsplit]; exact String.append_assoc _ _ _⟩
    refine ⟨?_, hsub⟩
    simp [Main.WIDGETS, List.mem_cons] at h
    obtain ⟨h1, h2, h3, h4, h5, h6, h7, h8, h9, h10, h11, h12, h13, h14⟩ := h
    simp [Main.handle_call_tool, Main.WIDGETS_BY_ID, Main.WIDGETS, alookup,
      h1, h2, h3, h4, h5, h6, h7, h8, h9, h10, h11, h12, h13, h14,
      Ne.symm h3, Ne.symm h4, Ne.symm h5, Ne.symm h6, Ne.symm h7, Ne.symm h8,
      Ne.symm h9, Ne.symm h10, Ne.symm h11, Ne.symm h12, Ne.symm h13, Ne.symm h14]
  · intro uri h fs baseUrl st
    simp [Main.WIDGETS, List.mem_cons] at h
    obtain ⟨h1, h2, h3, h4, h5, h6, h7, h8, h9, h10, h11, h12⟩ := h
    simp [Main.handle_read_resource, Main.WIDGETS_BY_URI, Main.WIDGETS, alookup,
      Ne.symm h1, Ne.symm h2, Ne.symm h3, Ne.symm h4, Ne.symm h5, Ne.symm h6,
      Ne.symm h7, Ne.symm h8, Ne.symm h9, Ne.symm h10, Ne.symm h11, Ne.symm h12]

/-- C4: for the scenario-modeler inputs `starting_mrr=50000`,
`monthly_growth_rate=5`, `monthly_churn_rate=3`, `gross_margin=80`,
`fixed_costs=30000`, every projected month has `mrr = 50000 * 1.02^m`,
the MRR sequence over months 1..12 is strictly increasing, and the
summary's `breakEvenMonth` is 1, the first month whose `netProfit`
(`mrr * 0.80 - 30000`) is non-negative. -/
theorem claim4_scenario_projection :
    (∀ pr ∈ calculate_projections ⟨50000, 5, 3, 80, 30000⟩,
        pr.mrr = 50000 * (1.02 : ℚ) ^ pr.month) ∧
    List.Chain' (· < ·)
      ((calculate_projections ⟨50000, 5, 3, 80, 30000⟩).map (·.mrr)) ∧
    (calculate_projections ⟨50000, 5, 3, 80, 30000⟩).map (·.month) =
      [1, 2, 3, 4, 5, 6, 7, 8, 9, 10, 11, 12] ∧
    (calculate_summary (calculate_projections ⟨50000, 5, 3, 80, 30000⟩)
        50000).breakEvenMonth = 1 ∧
    (∃ pr ∈ calculate_projections ⟨50000, 5, 3, 80, 30000⟩,
        pr.month = 1 ∧ 0 ≤ pr.netProfit ∧
        ∀ q ∈ calculate_projections ⟨50000, 5, 3, 80, 30000⟩,
          q.month < 1 → q.netProfit < 0) := by
  refine ⟨?_, ?_, ?_, ?_, ?_⟩
  · intro pr hpr
    obtain ⟨-, h2, -⟩ := projectionLoop_spec _ _ _ _ pr hpr
    rw [h2]
    norm_num
  · rw [show calculate_projections ⟨50000, 5, 3, 80, 30000⟩ =
          projectionLoop ⟨50000, 5, 3, 80, 30000⟩ ((5 - 3) / 100)
            ((List.range 12).map (· + 1)) 0 from rfl,
      projectionLoop_map_mrr, monthsTwelve, List.chain'_map]
    have hchain : List.Chain' (· < ·) [1, 2, 3, 4, 5, 6, 7, 8, 9, 10, 11, 12] := by
      norm_num [List.chain'_cons]
    refine hchain.imp ?_
    intro a b hab
    have h1 : (1 : ℚ) < 1 + (5 - 3) / 100 := by norm_num
    exact mul_lt_mul_of_pos_left (pow_lt_pow_right₀ h1 hab) (by norm_num)
  · rw [show calculate_projections ⟨50000, 5, 3, 80, 30000⟩ =
          projectionLoop ⟨50000, 5, 3, 80, 30000⟩ ((5 - 3) / 100)
            ((List.range 12).map (· + 1)) 0 from rfl,
      projectionLoop_map_month, monthsTwelve]
  · show firstBreakEvenMonth _ = 1
    rw [show calculate_projections ⟨50000, 5, 3, 80, 30000⟩ =
          projectionLoop ⟨50000, 5, 3, 80, 30000⟩ ((5 - 3) / 100)
            (1 :: [2, 3, 4, 5, 6, 7, 8, 9, 10, 11, 12]) 0 from by
        show projectionLoop _ _ ((List.range 12).map (· + 1)) 0 = _
        rw [monthsTwelve]]
    refine firstBreakEven_loop_cons _ _ _ _ _ ?_
    norm_num
  · refine ⟨month1Projection, ?_, rfl, (by norm_num [month1Projection]), ?_⟩
    · rw [show calculate_projections ⟨50000, 5, 3, 80, 30000⟩ =
            projectionLoop ⟨50000, 5, 3, 80, 30000⟩ ((5 - 3) / 100)
              (1 :: [2, 3, 4, 5, 6, 7, 8, 9, 10, 11, 12]) 0 from by
          show projectionLoop _ _ ((List.range 12).map (· + 1)) 0 = _
          rw [monthsTwelve]]
      simp [projectionLoop, month1Projection]
    · intro q hq hlt
      obtain ⟨hmem, -, -⟩ := projectionLoop_spec _ _ _ _ q hq
      rw [monthsTwelve] at hmem
      simp at hmem
      omega

/-- C5: for a component name whose HTML file resolves, loading twice
while the file's modification time is unchanged returns the identical
cached text on the second call without re-reading the file; and when the
file's content and modification time change between calls, the next call
returns the text derived from the updated content. -/
theorem claim5_html_cache (fs : FileSys) (name : String) (fi : FileInfo)
    (baseUrl : String) (st st₁ : CacheState) (h₁ : String) (didRead : Bool)
    (hfs : fs name = some fi)
    (hload : load_widget_html fs baseUrl st name = .ok (h₁, st₁, didRead)) :
    load_widget_html fs baseUrl st₁ name = .ok (h₁, st₁, false) ∧
    ∀ (fs' : FileSys) (fi' : FileInfo), fs' name = some fi' →
      fi'.mtime ≠ fi.mtime →
      load_widget_html fs' baseUrl st₁ name =
        .ok (rewriteAssetUrls fi'.content baseUrl,
          ⟨aput st₁.htmlCache name (rewriteAssetUrls fi'.content baseUrl),
           aput st₁.htmlMtimes name fi'.mtime⟩, true) := by
  have hstate : alookup st₁.htmlCache name = some h₁ ∧
      alookup st₁.htmlMtimes name = some fi.mtime := by
    unfold load_widget_html at hload
    rw [hfs] at hload
    rcases hc : alookup st.htmlCache name with _ | cached <;>
      rcases hm : alookup st.htmlMtimes name with _ | mt <;>
      rw [hc, hm] at hload <;>
      simp only [Except.ok.injEq, Prod.mk.injEq] at hload
    · obtain ⟨rfl, rfl, -⟩ := hload
      exact ⟨alookup_aput_self _ _ _, alookup_aput_self _ _ _⟩
    · obtain ⟨rfl, rfl, -⟩ := hload
      exact ⟨alookup_aput_self _ _ _, alookup_aput_self _ _ _⟩
    · obtain ⟨rfl, rfl, -⟩ := hload
      exact ⟨alookup_aput_self _ _ _, alookup_aput_self _ _ _⟩
    · split at hload
      · obtain ⟨rfl, rfl, -⟩ := hload
        rename_i hmtEq
        exact ⟨hc, by rw [hm, hmtEq]⟩
      · obtain ⟨rfl, rfl, -⟩ := hload
        exact ⟨alookup_aput_self _ _ _, alookup_aput_self _ _ _⟩
  constructor
  · simp [load_widget_html, hfs, hstate.1, hstate.2]
  · intro fs' fi' hfs' hne
    simp [load_widget_html, hfs', hstate.1, hstate.2, Ne.symm hne]

theorem claim5_witness :
    load_widget_html demoFS demoBase demoCache1 "boilerplate" =
      .ok (demoLoaded, demoCache1, false) ∧
    load_widget_html demoFS2 demoBase demoCache1 "boilerplate" =
      .ok (rewriteAssetUrls demoFile2.content demoBase,
        ⟨aput demoCache1.htmlCache "boilerplate"
          (rewriteAssetUrls demoFile2.content demoBase),
         aput demoCache1.htmlMtimes "boilerplate" demoFile2.mtime⟩, true) :=
  have hc := claim5_html_cache demoFS "boilerplate" demoFile demoBase
    emptyCache demoCache1 demoLoaded true rfl rfl
  ⟨hc.1, hc.2 demoFS2 demoFile2 rfl (by norm_num [demoFile, demoFile2])⟩

/-- The history stored after `add_message` is the appended history,
truncated to the last `maxHist` entries when it exceeds the bound. -/
theorem add_message_get (maxHist : Nat) (cm : Agent.Conversations)
    (id role content : String) :
    Agent.get_history (Agent.add_message maxHist cm id role content) id =
      (if (Agent.get_history cm id ++ [(⟨role, content⟩ : Agent.Message)]).length > maxHist
       then Agent.pyLastSlice maxHist
         (Agent.get_history cm id ++ [(⟨role, content⟩ : Agent.Message)])
       else Agent.get_history cm id ++ [(⟨role, content⟩ : Agent.Message)]) := by
  unfold Agent.add_message Agent.get_history
  rw [alookup_aput_self]
  rfl

/-- C6: after every `add_message` on any conversation id, that id's
history never exceeds the configured maximum (default 20); dropping
happens from the oldest side (the stored history is a suffix of the
appended history and still ends with the newest message). -/
theorem claim6_history_bounded (maxHist : Nat) (hpos : 0 < maxHist)
    (cm : Agent.Conversations) (id role content : String) :
    (Agent.get_history (Agent.add_message maxHist cm id role content) id).length ≤ maxHist ∧
    (Agent.get_history (Agent.add_message maxHist cm id role content) id).getLast?
      = some ⟨role, content⟩ ∧
    (∃ k, Agent.get_history (Agent.add_message maxHist cm id role content) id =
      (Agent.get_history cm id ++ [(⟨role, content⟩ : Agent.Message)]).drop k) ∧
    Agent.load_max_history none = 20 := by
  rw [add_message_get]
  set h := Agent.get_history cm id ++ [(⟨role, content⟩ : Agent.Message)] with hh
  have hmne : maxHist ≠ 0 := Nat.pos_iff_ne_zero.mp hpos
  by_cases hlen : h.length > maxHist
  · rw [if_pos hlen]
    unfold Agent.pyLastSlice
    rw [if_neg hmne]
    have hlenr : (h.drop (h.length - maxHist)).length = maxHist := by
      simp [List.length_drop]
      omega
    refine ⟨by omega, ?_, ⟨h.length - maxHist, rfl⟩, rfl⟩
    have hne : h.drop (h.length - maxHist) ≠ [] := by
      intro hemp
      rw [hemp] at hlenr
      simp at hlenr
      omega
    have hsplit := List.take_append_drop (h.length - maxHist) h
    calc (h.drop (h.length - maxHist)).getLast?
        = (h.take (h.length - maxHist) ++ h.drop (h.length - maxHist)).getLast? :=
          (List.getLast?_append_of_ne_nil _ hne).symm
      _ = h.getLast? := by rw [hsplit]
      _ = some ⟨role, content⟩ := by rw [hh]; exact List.getLast?_concat _
  · rw [if_neg hlen]
    refine ⟨by omega, ?_, ⟨0, by rw [List.drop_zero]⟩, rfl⟩
    rw [hh]
    exact List.getLast?_concat _

theorem claim6_witness :
    (Agent.get_history (Agent.add_message 20 [] "default" "user" "hello") "default").length ≤ 20 ∧
    (Agent.get_history (Agent.add_message 20 [] "default" "user" "hello") "default").getLast?
      = some ⟨"user", "hello"⟩ ∧
    (∃ k, Agent.get_history (Agent.add_message 20 [] "default" "user" "hello") "default" =
      (Agent.get_history [] "default" ++ [(⟨"user", "hello"⟩ : Agent.Message)]).drop k) ∧
    Agent.load_max_history none = 20 :=
  claim6_history_bounded 20 (by decide) [] "default" "user" "hello"

theorem claim4_witness :
    month1Projection.mrr = 50000 * (1.02 : ℚ) ^ month1Projection.month :=
  claim4_scenario_projection.1 month1Projection
    (by
      rw [show calculate_projections ⟨50000, 5, 3, 80, 30000⟩ =
            projectionLoop ⟨50000, 5, 3, 80, 30000⟩ ((5 - 3) / 100)
              (1 :: [2, 3, 4, 5, 6, 7, 8, 9, 10, 11, 12]) 0 from by
          show projectionLoop _ _ ((List.range 12).map (· + 1)) 0 = _
          rw [monthsTwelve]]
      simp [projectionLoop, month1Projection])

/-- C7: the claim that every tool name routable by the call-tool
dispatcher appears in the list-tools result is violated by `geocode`:
the dispatcher routes `geocode` to its handler, yet `list_tools()`
declares only the widgets plus `poll_system_stats`. The remaining part
of the claim (every widget and `poll_system_stats` are declared) holds. -/
theorem claim7_geocode_routable_but_unlisted :
    "geocode" ∉ Main.listToolNames ∧
    (∀ (args : ArgMap) (env : Env),
      Main.handle_call_tool "geocode" args env = Main.handle_geocode args env) ∧
    "poll_system_stats" ∈ Main.listToolNames ∧
    ∀ w ∈ Main.WIDGETS, w.identifier ∈ Main.listToolNames := by
  refine ⟨by decide, fun args env => rfl, by decide, ?_⟩
  intro w hw
  fin_cases hw <;> decide

theorem claim7_witness : "show_card" ∈ Main.listToolNames :=
  claim7_geocode_routable_but_unlisted.2.2.2
    ⟨"show_card", "Show Card Widget", "ui://widget/boilerplate.html", "boilerplate"⟩
    (by decide)

/-- C8 counterexample: a module that raises during import aborts the
discovery loop, so a later module exposing a descriptor and handler is
never registered — the loop's exception propagates and no registry is
produced at all. -/
theorem claim8_counterexample :
    Discovery.discover [Discovery.failingModule, Discovery.okModule]
      Discovery.emptyRegistry = .error "boom" := rfl

/-- C8 (amended): the discovery loop has no per-module fault isolation;
as soon as a non-private module's import raises, discovery propagates
that exception (after processing any earlier modules), so the modules
after the failing one are not registered. -/
theorem claim8_discovery_aborts_on_failure (pre : List Discovery.PyModule)
    (m : Discovery.PyModule) (post : List Discovery.PyModule) (e : String)
    (reg : Discovery.Registry)
    (hpre : ∀ p ∈ pre, Discovery.isPrivateName p.name = true ∨ ∃ d, p.load = .ok d)
    (hm : Discovery.isPrivateName m.name = false) (hfail : m.load = .error e) :
    Discovery.discover (pre ++ m :: post) reg = .error e := by
  induction pre generalizing reg with
  | nil => simp [Discovery.discover, hm, hfail]
  | cons p ps ih =>
      have hrest : ∀ q ∈ ps,
          Discovery.isPrivateName q.name = true ∨ ∃ d, q.load = .ok d :=
        fun q hq => hpre q (List.mem_cons_of_mem _ hq)
      by_cases hp : Discovery.isPrivateName p.name = true
      · simp only [List.cons_append, Discovery.discover, hp, if_true]
        exact ih _ hrest
      · rcases hpre p (List.mem_cons_self _ _) with hpriv | ⟨d, hd⟩
        · exact absurd hpriv hp
        · simp only [List.cons_append, Discovery.discover, hp, if_false, hd]
          exact ih _ hrest

theorem claim8_witness :
    Discovery.discover ([Discovery.okModule] ++ Discovery.failingModule :: [])
      Discovery.emptyRegistry = .error "boom" :=
  claim8_discovery_aborts_on_failure [Discovery.okModule] Discovery.failingModule
    [] "boom" Discovery.emptyRegistry
    (by
      intro p hp
      rw [List.mem_singleton] at hp
      subst hp
      exact Or.inr ⟨_, rfl⟩)
    rfl rfl

/-- C9 counterexample: the call-tool operation (which validates against
`main.py`'s `SolarSystemInput`, whose `planet_name` is a plain
`Optional[str]`) accepts the out-of-set planet name `"Pluto"` and
returns a success result echoing it, instead of the error result the
claim requires. -/
theorem claim9_counterexample :
    Main.handle_call_tool "show_solar_system"
        [("planet_name", .vStr "Pluto")] sampleEnv =
      .ok { isError := false,
            content := [.text "Solar System (focusing on Pluto)"],
            structured := some (.vObj [("title", .vStr "Solar System Explorer"),
              ("planet_name", .vStr "Pluto")]) } := rfl

/-- C9 (amended): only the widgets-package `SolarSystemInput` declares
`planet_name` as a closed enumeration; its handler rejects any value
outside the planet set with a validation error, while the model used by
`main.py`'s dispatcher accepts arbitrary strings, so the tool call
succeeds on them. -/
theorem claim9_enum_only_in_widgets_package (s : String)
    (hs : s ∉ WPkg.planetNames) :
    WPkg.handle_solar_system [("planet_name", .vStr s)] =
      errorResult (formatValidationError
        [("planet_name",
          "Input should be " ++ String.intercalate " or " WPkg.planetNames)]
        (fieldNames WPkg.SolarSystemInput)) ∧
    (Main.handle_solar_system [("planet_name", .vStr s)]).isError = false := by
  constructor
  · simp [WPkg.handle_solar_system, WPkg.SolarSystemInput, validate, fieldErrors,
      extraErrors, fieldResult, findFieldValue, fieldKeys, alookup, parseValue,
      hs, declaredKeys, errorResult]
  · simp [Main.handle_solar_system, Main.SolarSystemInput, validate, fieldErrors,
      extraErrors, fieldResult, findFieldValue, fieldKeys, alookup, parseValue,
      declaredKeys, fieldAssignments]

theorem claim9_witness :
    WPkg.handle_solar_system [("planet_name", .vStr "Pluto")] =
      errorResult (formatValidationError
        [("planet_name",
          "Input should be " ++ String.intercalate " or " WPkg.planetNames)]
        (fieldNames WPkg.SolarSystemInput)) ∧
    (Main.handle_solar_system [("planet_name", .vStr "Pluto")]).isError = false :=
  claim9_enum_only_in_widgets_package "Pluto" (by decide)

/-- C10 counterexample: the two implementations of the tool surface are
not behaviorally equivalent — on `show_solar_system` with
`planet_name="Pluto"`, `main.py`'s dispatcher returns a success result
while the widgets-package handler returns a validation-error result. -/
theorem claim10_counterexample :
    okIsError (Main.handle_call_tool "show_solar_system"
      [("planet_name", .vStr "Pluto")] sampleEnv) = some false ∧
    (WPkg.call "show_solar_system" [("planet_name", .vStr "Pluto")]
      sampleEnv).map okIsError = some (some true) := ⟨rfl, rfl⟩

/-- C10 (amended): outside the three tools whose widgets-package input
models add `Literal` enumerations (`show_carousel`, `show_gallery`,
`show_solar_system`), the handler selected by `main.py`'s dispatcher and
the handler registered by the widgets package return equal results on
every argument mapping and environment. -/
theorem claim10_equivalence_outside_enum_widgets :
    ∀ name ∈ allRegisteredToolNames,
      name ∉ (["show_carousel", "show_gallery", "show_solar_system"] : List String) →
      ∀ (args : ArgMap) (env : Env),
        WPkg.call name args env = some (Main.handle_call_tool name args env) := by
  intro name hmem hbad args env
  simp only [allRegisteredToolNames, WPkg.DATA_ONLY_HANDLERS, WPkg.WIDGET_HANDLERS,
    List.map_append, List.map_cons, List.map_nil, List.cons_append, List.nil_append,
    List.mem_cons, List.not_mem_nil, or_false] at hmem
  rcases hmem with rfl | rfl | rfl | rfl | rfl | rfl | rfl | rfl | rfl | rfl | rfl | rfl | rfl | rfl
  · rfl
  · rfl
  · rfl
  · simp at hbad
  · rfl
  · simp at hbad
  · rfl
  · rfl
  · rfl
  · rfl
  · rfl
  · simp at hbad
  · rfl
  · rfl

theorem claim10_witness :
    WPkg.call "show_card" [] sampleEnv =
      some (Main.handle_call_tool "show_card" [] sampleEnv) :=
  claim10_equivalence_outside_enum_widgets "show_card" (by decide) (by decide)
    [] sampleEnv

theorem claim3_witness :
    (Main.handle_call_tool "definitely_not_a_tool" [] sampleEnv =
      .ok { isError := true,
            content := [.text ("Unknown tool: " ++ "definitely_not_a_tool")],
            structured := none }) ∧
    (Main.handle_read_resource "ui://widget/nope.html" (fun _ => none) "b" emptyCache =
      .ok (⟨[], some ("Unknown resource: " ++ "ui://widget/nope.html")⟩, emptyCache)) :=
  ⟨(claim3_unknown_tool_and_resource.1 "definitely_not_a_tool" (by decide) [] sampleEnv).1,
   claim3_unknown_tool_and_resource.2 "ui://widget/nope.html" (by decide)
     (fun _ => none) "b" emptyCache⟩

end MCPApp
